import Mathlib

/-!
# Classic pairing handler (gd/security/pairing/classic_pairing_handler.cc)

A shallow embedding of `ClassicPairingHandler`: the member variables become a
structure, every member function becomes a function from the handler to an
`Outcome` that carries the handler afterwards, the calls made on the
collaborators (fixed channel manager, fixed channel, fixed channel service,
security manager channel, completion callback) in program order, and the
assertion that stopped the function, if one did.  Logging is left out.
-/

namespace bluetooth.security.pairing

/-! ## Types declared outside the translation unit -/

/-- The 48-bit device address, `hci::Address`. -/
abbrev Address := Nat

/-- The 16 bytes of a link key, `std::array<uint8_t, 16>`. -/
abbrev LinkKey := List Nat

/-- The status byte of an event, `hci::ErrorCode`. -/
abbrev ErrorCode := Nat

/-- The four values of `hci::IoCapability` the handler switches over. -/
inductive IoCapability where
  | DISPLAY_ONLY
  | DISPLAY_YES_NO
  | KEYBOARD_ONLY
  | NO_INPUT_NO_OUTPUT
  deriving DecidableEq

/-- The values of `hci::OobDataPresent`. -/
inductive OobDataPresent where
  | NOT_PRESENT
  | P_192_PRESENT
  | P_256_PRESENT
  | P_192_AND_256_PRESENT
  deriving DecidableEq

/-- The values of `hci::AuthenticationRequirements`. -/
inductive AuthenticationRequirements where
  | NO_BONDING
  | NO_BONDING_MITM_PROTECTION
  | DEDICATED_BONDING
  | DEDICATED_BONDING_MITM_PROTECTION
  | GENERAL_BONDING
  | GENERAL_BONDING_MITM_PROTECTION
  deriving DecidableEq

/-- The values of `hci::KeyType`. -/
inductive KeyType where
  | COMBINATION
  | DEBUG_COMBINATION
  | UNAUTHENTICATED_P192
  | AUTHENTICATED_P192
  | CHANGED
  | UNAUTHENTICATED_P256
  | AUTHENTICATED_P256
  deriving DecidableEq

/-- The five cases of `hci::KeypressNotificationType` in the keypress handler. -/
inductive KeypressNotificationType where
  | ENTRY_STARTED
  | DIGIT_ENTERED
  | DIGIT_ERASED
  | CLEARED
  | ENTRY_COMPLETED
  deriving DecidableEq

/-- The result passed to the registration-complete callback. -/
inductive RegistrationResult where
  | SUCCESS
  | FAIL_DUPLICATE_SERVICE
  | FAIL_INVALID_SERVICE
  deriving DecidableEq

/-- The result passed to the connection-failure callback. -/
inductive ConnectionResult where
  | SUCCESS
  | FAIL_NO_SERVICE_REGISTERED
  | FAIL_ALL_SERVICES_HAVE_CHANNEL
  | FAIL_HCI_ERROR
  deriving DecidableEq

/-- The object behind a `std::unique_ptr<l2cap::classic::FixedChannel>`. -/
abbrev FixedChannel := Nat

/-- The object behind a `std::unique_ptr<l2cap::classic::FixedChannelService>`. -/
abbrev FixedChannelService := Nat

/-- The state of the single-shot `complete_callback_` member: bound as
constructed, or moved from by an earlier `std::move(complete_callback_).Run`. -/
inductive OnceCallback where
  | bound
  | moved_from
  deriving DecidableEq

/-- Modelled from the spec: the security record class is declared outside
src/; the spec gives it bonded and paired flags, a stored link key with its
key type, and the device address it is keyed by. -/
structure SecurityRecord where
  device_ : Address
  bonded_ : Bool
  paired_ : Bool
  link_key_ : LinkKey
  key_type_ : KeyType
  deriving DecidableEq

/-- The address read by `GetRecord()->GetDevice().GetAddress()`. -/
def SecurityRecord.GetAddress (r : SecurityRecord) : Address := r.device_

/-- The flag read by `GetRecord()->IsBonded()`. -/
def SecurityRecord.IsBonded (r : SecurityRecord) : Bool := r.bonded_

/-- The flag read by `GetRecord()->IsPaired()`. -/
def SecurityRecord.IsPaired (r : SecurityRecord) : Bool := r.paired_

/-- The key read by `GetRecord()->GetLinkKey()`. -/
def SecurityRecord.GetLinkKey (r : SecurityRecord) : LinkKey := r.link_key_

/-- The write done by `GetRecord()->SetLinkKey(key, type)`. -/
def SecurityRecord.SetLinkKey (r : SecurityRecord) (link_key : LinkKey) (key_type : KeyType) :
    SecurityRecord :=
  { r with link_key_ := link_key, key_type_ := key_type }

/-! ## Commands and collaborator calls -/

/-- The commands the handler builds and passes to `SendCommand`. -/
inductive Command where
  | LinkKeyRequestReply (bd_addr : Address) (link_key : LinkKey)
  | LinkKeyRequestNegativeReply (bd_addr : Address)
  | IoCapabilityRequestReply (bd_addr : Address) (io_capability : IoCapability)
      (oob_present : OobDataPresent) (authentication_requirements : AuthenticationRequirements)
  | UserConfirmationRequestReply (bd_addr : Address)
  deriving DecidableEq

/-- The calls the handler makes on its collaborators. `Run` records the state
of `complete_callback_` at the moment `std::move(complete_callback_).Run` is
executed. -/
inductive Call where
  | RegisterService
  | ConnectServices (address : Address)
  | Acquire (fixed_channel : FixedChannel)
  | RegisterOnCloseCallback (fixed_channel : FixedChannel)
  | Release (fixed_channel : FixedChannel)
  | Unregister (fixed_channel_service : FixedChannelService)
  | Run (complete_callback : OnceCallback) (address : Address)
  | SendCommand (command : Command)
  deriving DecidableEq

/-! ## The handler -/

/-- The member variables of `ClassicPairingHandler`, with the record held by
its base class. -/
structure ClassicPairingHandler where
  record_ : SecurityRecord
  fixed_channel_service_ : Option FixedChannelService
  fixed_channel_ : Option FixedChannel
  locally_initiated_ : Bool
  local_io_capability_ : IoCapability
  local_oob_present_ : OobDataPresent
  local_authentication_requirements_ : AuthenticationRequirements
  remote_io_capability_ : IoCapability
  complete_callback_ : OnceCallback
  deriving DecidableEq

/-- The assertion that stopped a member function. -/
inductive Abort where
  | packet_IsValid
  | address_mismatch
  | fixed_channel_eq_nullptr
  | fixed_channel_ne_nullptr
  deriving DecidableEq

/-- What a member function leaves behind: the handler, the calls it made in
order, and the failed assertion if it did not return. -/
structure Outcome where
  handler : ClassicPairingHandler
  calls : List Call
  abort : Option Abort
  deriving DecidableEq

/-- Normal return without calls. -/
def Outcome.ret (h : ClassicPairingHandler) : Outcome :=
  { handler := h, calls := [], abort := none }

/-- A failed `ASSERT` / `ASSERT_LOG` at the head of a function: nothing has
been done yet. -/
def Outcome.fail (h : ClassicPairingHandler) (a : Abort) : Outcome :=
  { handler := h, calls := [], abort := some a }

/-- The address `GetRecord()->GetDevice().GetAddress()` of the handler. -/
def ClassicPairingHandler.GetAddress (h : ClassicPairingHandler) : Address :=
  h.record_.GetAddress

/-- Embedding of `ClassicPairingHandler::OnRegistrationComplete`: the service pointer
(null on the failure results) is stored and a connection is requested. -/
def OnRegistrationComplete (h : ClassicPairingHandler) (_result : RegistrationResult)
    (fixed_channel_service : Option FixedChannelService) : Outcome :=
  { handler := { h with fixed_channel_service_ := fixed_channel_service }
    calls := [Call.ConnectServices h.GetAddress]
    abort := none }

/-- Embedding of `ClassicPairingHandler::OnUnregistered`. -/
def OnUnregistered (h : ClassicPairingHandler) : Outcome :=
  { handler := { h with complete_callback_ := OnceCallback.moved_from }
    calls := [Call.Run h.complete_callback_ h.GetAddress]
    abort := none }

/-- Embedding of `ClassicPairingHandler::OnConnectionOpen`. -/
def OnConnectionOpen (h : ClassicPairingHandler) (fixed_channel : FixedChannel) : Outcome :=
  match h.fixed_channel_ with
  | some _ => Outcome.fail h Abort.fixed_channel_eq_nullptr
  | none =>
    { handler := { h with fixed_channel_ := some fixed_channel }
      calls := [Call.Acquire fixed_channel, Call.RegisterOnCloseCallback fixed_channel]
      abort := none }

/-- Embedding of `ClassicPairingHandler::Cancel`. -/
def Cancel (h : ClassicPairingHandler) : Outcome :=
  let released : List Call :=
    match h.fixed_channel_ with
    | some fixed_channel => [Call.Release fixed_channel]
    | none => []
  let unregistered : List Call :=
    match h.fixed_channel_service_ with
    | some fixed_channel_service => [Call.Unregister fixed_channel_service]
    | none => []
  { handler := h, calls := released ++ unregistered, abort := none }

/-- Embedding of `ClassicPairingHandler::OnConnectionFail`. -/
def OnConnectionFail (h : ClassicPairingHandler) (_result : ConnectionResult) : Outcome :=
  Cancel h

/-- Embedding of `ClassicPairingHandler::OnConnectionClose`. -/
def OnConnectionClose (h : ClassicPairingHandler) (_error_code : ErrorCode) : Outcome :=
  match h.fixed_channel_ with
  | none => Outcome.fail h Abort.fixed_channel_ne_nullptr
  | some _ => Cancel h

/-- Embedding of `ClassicPairingHandler::Initiate`. -/
def Initiate (h : ClassicPairingHandler) (locally_initiated : Bool) (io_capability : IoCapability)
    (oob_present : OobDataPresent) (auth_requirements : AuthenticationRequirements) : Outcome :=
  { handler :=
      { h with
        locally_initiated_ := locally_initiated
        local_io_capability_ := io_capability
        local_oob_present_ := oob_present
        local_authentication_requirements_ := auth_requirements }
    calls := [Call.RegisterService]
    abort := none }

/-! ## Event packets

The packet views are declared outside the translation unit.  Each view below
has the validity predicate and the getters its `OnReceive` overload reads. -/

/-- View of a change-connection-link-key-complete event. -/
structure ChangeConnectionLinkKeyCompleteView where
  IsValid : Bool
  deriving DecidableEq

/-- View of a master-link-key-complete event. -/
structure MasterLinkKeyCompleteView where
  IsValid : Bool
  deriving DecidableEq

/-- View of a PIN-code-request event. -/
structure PinCodeRequestView where
  IsValid : Bool
  GetBdAddr : Address
  deriving DecidableEq

/-- View of a link-key-request event. -/
structure LinkKeyRequestView where
  IsValid : Bool
  GetBdAddr : Address
  deriving DecidableEq

/-- View of a link-key-notification event. -/
structure LinkKeyNotificationView where
  IsValid : Bool
  GetBdAddr : Address
  GetLinkKey : LinkKey
  GetKeyType : KeyType
  deriving DecidableEq

/-- View of an IO-capability-request event. -/
structure IoCapabilityRequestView where
  IsValid : Bool
  GetBdAddr : Address
  deriving DecidableEq

/-- View of an IO-capability-response event. -/
structure IoCapabilityResponseView where
  IsValid : Bool
  GetBdAddr : Address
  GetIoCapability : IoCapability
  deriving DecidableEq

/-- View of a simple-pairing-complete event; the handler never reads the status. -/
structure SimplePairingCompleteView where
  IsValid : Bool
  GetStatus : ErrorCode
  GetBdAddr : Address
  deriving DecidableEq

/-- View of a return-link-keys event. -/
structure ReturnLinkKeysView where
  IsValid : Bool
  deriving DecidableEq

/-- View of an encryption-change event. -/
structure EncryptionChangeView where
  IsValid : Bool
  deriving DecidableEq

/-- View of an encryption-key-refresh-complete event. -/
structure EncryptionKeyRefreshCompleteView where
  IsValid : Bool
  deriving DecidableEq

/-- View of a remote-OOB-data-request event. -/
structure RemoteOobDataRequestView where
  IsValid : Bool
  GetBdAddr : Address
  deriving DecidableEq

/-- View of a user-passkey-notification event. -/
structure UserPasskeyNotificationView where
  IsValid : Bool
  GetBdAddr : Address
  deriving DecidableEq

/-- View of a keypress-notification event.  The event carries the device
address of the peer; the handler reads only the notification type. -/
structure KeypressNotificationView where
  IsValid : Bool
  GetBdAddr : Address
  GetNotificationType : KeypressNotificationType
  deriving DecidableEq

/-- View of a user-confirmation-request event. -/
structure UserConfirmationRequestView where
  IsValid : Bool
  GetBdAddr : Address
  deriving DecidableEq

/-- View of a user-passkey-request event. -/
structure UserPasskeyRequestView where
  IsValid : Bool
  GetBdAddr : Address
  deriving DecidableEq

/-! ## The `OnReceive` overloads -/

/-- Embedding of `OnReceive(hci::ChangeConnectionLinkKeyCompleteView)`. -/
def OnReceive_ChangeConnectionLinkKeyCompleteView (h : ClassicPairingHandler)
    (packet : ChangeConnectionLinkKeyCompleteView) : Outcome :=
  if !packet.IsValid then Outcome.fail h Abort.packet_IsValid
  else Outcome.ret h

/-- Embedding of `OnReceive(hci::MasterLinkKeyCompleteView)`. -/
def OnReceive_MasterLinkKeyCompleteView (h : ClassicPairingHandler)
    (packet : MasterLinkKeyCompleteView) : Outcome :=
  if !packet.IsValid then Outcome.fail h Abort.packet_IsValid
  else Outcome.ret h

/-- Embedding of `OnReceive(hci::PinCodeRequestView)`. -/
def OnReceive_PinCodeRequestView (h : ClassicPairingHandler) (packet : PinCodeRequestView) :
    Outcome :=
  if !packet.IsValid then Outcome.fail h Abort.packet_IsValid
  else if h.GetAddress ≠ packet.GetBdAddr then Outcome.fail h Abort.address_mismatch
  else Outcome.ret h

/-- Embedding of `OnReceive(hci::LinkKeyRequestView)`. -/
def OnReceive_LinkKeyRequestView (h : ClassicPairingHandler) (packet : LinkKeyRequestView) :
    Outcome :=
  if !packet.IsValid then Outcome.fail h Abort.packet_IsValid
  else if h.GetAddress ≠ packet.GetBdAddr then Outcome.fail h Abort.address_mismatch
  else if h.record_.IsBonded || h.record_.IsPaired then
    { handler := h
      calls := [Call.SendCommand (Command.LinkKeyRequestReply h.GetAddress h.record_.GetLinkKey)]
      abort := none }
  else
    { handler := h
      calls := [Call.SendCommand (Command.LinkKeyRequestNegativeReply h.GetAddress)]
      abort := none }

/-- Embedding of `OnReceive(hci::LinkKeyNotificationView)`. -/
def OnReceive_LinkKeyNotificationView (h : ClassicPairingHandler)
    (packet : LinkKeyNotificationView) : Outcome :=
  if !packet.IsValid then Outcome.fail h Abort.packet_IsValid
  else if h.GetAddress ≠ packet.GetBdAddr then Outcome.fail h Abort.address_mismatch
  else
    { handler := { h with record_ := h.record_.SetLinkKey packet.GetLinkKey packet.GetKeyType }
      calls := []
      abort := none }

/-- Embedding of `OnReceive(hci::IoCapabilityRequestView)`. -/
def OnReceive_IoCapabilityRequestView (h : ClassicPairingHandler)
    (packet : IoCapabilityRequestView) : Outcome :=
  if !packet.IsValid then Outcome.fail h Abort.packet_IsValid
  else if h.GetAddress ≠ packet.GetBdAddr then Outcome.fail h Abort.address_mismatch
  else
    let io_capability := h.local_io_capability_
    let oob_present := OobDataPresent.NOT_PRESENT
    let authentication_requirements := h.local_authentication_requirements_
    { handler := h
      calls := [Call.SendCommand (Command.IoCapabilityRequestReply h.GetAddress io_capability
        oob_present authentication_requirements)]
      abort := none }

/-- Embedding of `OnReceive(hci::IoCapabilityResponseView)`. -/
def OnReceive_IoCapabilityResponseView (h : ClassicPairingHandler)
    (packet : IoCapabilityResponseView) : Outcome :=
  if !packet.IsValid then Outcome.fail h Abort.packet_IsValid
  else if h.GetAddress ≠ packet.GetBdAddr then Outcome.fail h Abort.address_mismatch
  else Outcome.ret { h with remote_io_capability_ := packet.GetIoCapability }

/-- Embedding of `OnReceive(hci::SimplePairingCompleteView)`. -/
def OnReceive_SimplePairingCompleteView (h : ClassicPairingHandler)
    (packet : SimplePairingCompleteView) : Outcome :=
  if !packet.IsValid then Outcome.fail h Abort.packet_IsValid
  else if h.GetAddress ≠ packet.GetBdAddr then Outcome.fail h Abort.address_mismatch
  else Cancel h

/-- Embedding of `OnReceive(hci::ReturnLinkKeysView)`. -/
def OnReceive_ReturnLinkKeysView (h : ClassicPairingHandler) (packet : ReturnLinkKeysView) :
    Outcome :=
  if !packet.IsValid then Outcome.fail h Abort.packet_IsValid
  else Outcome.ret h

/-- Embedding of `OnReceive(hci::EncryptionChangeView)`. -/
def OnReceive_EncryptionChangeView (h : ClassicPairingHandler) (packet : EncryptionChangeView) :
    Outcome :=
  if !packet.IsValid then Outcome.fail h Abort.packet_IsValid
  else Outcome.ret h

/-- Embedding of `OnReceive(hci::EncryptionKeyRefreshCompleteView)`. -/
def OnReceive_EncryptionKeyRefreshCompleteView (h : ClassicPairingHandler)
    (packet : EncryptionKeyRefreshCompleteView) : Outcome :=
  if !packet.IsValid then Outcome.fail h Abort.packet_IsValid
  else Outcome.ret h

/-- Embedding of `OnReceive(hci::RemoteOobDataRequestView)`. -/
def OnReceive_RemoteOobDataRequestView (h : ClassicPairingHandler)
    (packet : RemoteOobDataRequestView) : Outcome :=
  if !packet.IsValid then Outcome.fail h Abort.packet_IsValid
  else if h.GetAddress ≠ packet.GetBdAddr then Outcome.fail h Abort.address_mismatch
  else Outcome.ret h

/-- Embedding of `OnReceive(hci::UserPasskeyNotificationView)`. -/
def OnReceive_UserPasskeyNotificationView (h : ClassicPairingHandler)
    (packet : UserPasskeyNotificationView) : Outcome :=
  if !packet.IsValid then Outcome.fail h Abort.packet_IsValid
  else if h.GetAddress ≠ packet.GetBdAddr then Outcome.fail h Abort.address_mismatch
  else Outcome.ret h

/-- Embedding of `OnReceive(hci::KeypressNotificationView)`: every case of the
switch is an empty placeholder. -/
def OnReceive_KeypressNotificationView (h : ClassicPairingHandler)
    (packet : KeypressNotificationView) : Outcome :=
  if !packet.IsValid then Outcome.fail h Abort.packet_IsValid
  else
    match packet.GetNotificationType with
    | KeypressNotificationType.ENTRY_STARTED => Outcome.ret h
    | KeypressNotificationType.DIGIT_ENTERED => Outcome.ret h
    | KeypressNotificationType.DIGIT_ERASED => Outcome.ret h
    | KeypressNotificationType.CLEARED => Outcome.ret h
    | KeypressNotificationType.ENTRY_COMPLETED => Outcome.ret h

/-- The local variable `initiator_io_capability` of the confirmation handler. -/
def initiator_io_capability (h : ClassicPairingHandler) : IoCapability :=
  if h.locally_initiated_ then h.local_io_capability_ else h.remote_io_capability_

/-- The local variable `responder_io_capability` of the confirmation handler. -/
def responder_io_capability (h : ClassicPairingHandler) : IoCapability :=
  if !h.locally_initiated_ then h.local_io_capability_ else h.remote_io_capability_

/-- The statement `GetChannel()->SendCommand(UserConfirmationRequestReplyBuilder::Create(address))`
followed by `break`. -/
def sendUserConfirmationRequestReply (h : ClassicPairingHandler) : Outcome :=
  { handler := h
    calls := [Call.SendCommand (Command.UserConfirmationRequestReply h.GetAddress)]
    abort := none }

/-- Embedding of `OnReceive(hci::UserConfirmationRequestView)`, the nested switch
case by case. -/
def OnReceive_UserConfirmationRequestView (h : ClassicPairingHandler)
    (packet : UserConfirmationRequestView) : Outcome :=
  if !packet.IsValid then Outcome.fail h Abort.packet_IsValid
  else if h.GetAddress ≠ packet.GetBdAddr then Outcome.fail h Abort.address_mismatch
  else
    match initiator_io_capability h with
    | IoCapability.DISPLAY_ONLY =>
      match responder_io_capability h with
      | IoCapability.DISPLAY_ONLY => sendUserConfirmationRequestReply h
      | IoCapability.DISPLAY_YES_NO => sendUserConfirmationRequestReply h
      | IoCapability.KEYBOARD_ONLY => Outcome.ret h
      | IoCapability.NO_INPUT_NO_OUTPUT => sendUserConfirmationRequestReply h
    | IoCapability.DISPLAY_YES_NO =>
      match responder_io_capability h with
      | IoCapability.DISPLAY_ONLY => Outcome.ret h
      | IoCapability.DISPLAY_YES_NO => Outcome.ret h
      | IoCapability.KEYBOARD_ONLY => Outcome.ret h
      | IoCapability.NO_INPUT_NO_OUTPUT => Outcome.ret h
    | IoCapability.KEYBOARD_ONLY =>
      match responder_io_capability h with
      | IoCapability.DISPLAY_ONLY => Outcome.ret h
      | IoCapability.DISPLAY_YES_NO => Outcome.ret h
      | IoCapability.KEYBOARD_ONLY => Outcome.ret h
      | IoCapability.NO_INPUT_NO_OUTPUT => sendUserConfirmationRequestReply h
    | IoCapability.NO_INPUT_NO_OUTPUT =>
      match responder_io_capability h with
      | IoCapability.DISPLAY_ONLY => sendUserConfirmationRequestReply h
      | IoCapability.DISPLAY_YES_NO => sendUserConfirmationRequestReply h
      | IoCapability.KEYBOARD_ONLY => sendUserConfirmationRequestReply h
      | IoCapability.NO_INPUT_NO_OUTPUT => sendUserConfirmationRequestReply h

/-- Embedding of `OnReceive(hci::UserPasskeyRequestView)`. -/
def OnReceive_UserPasskeyRequestView (h : ClassicPairingHandler)
    (packet : UserPasskeyRequestView) : Outcome :=
  if !packet.IsValid then Outcome.fail h Abort.packet_IsValid
  else if h.GetAddress ≠ packet.GetBdAddr then Outcome.fail h Abort.address_mismatch
  else Outcome.ret h

/-! ## Overload resolution and entry points -/

/-- The closed set of event packets the handler has an `OnReceive` overload for. -/
inductive Event where
  | ChangeConnectionLinkKeyComplete (packet : ChangeConnectionLinkKeyCompleteView)
  | MasterLinkKeyComplete (packet : MasterLinkKeyCompleteView)
  | PinCodeRequest (packet : PinCodeRequestView)
  | LinkKeyRequest (packet : LinkKeyRequestView)
  | LinkKeyNotification (packet : LinkKeyNotificationView)
  | IoCapabilityRequest (packet : IoCapabilityRequestView)
  | IoCapabilityResponse (packet : IoCapabilityResponseView)
  | SimplePairingComplete (packet : SimplePairingCompleteView)
  | ReturnLinkKeys (packet : ReturnLinkKeysView)
  | EncryptionChange (packet : EncryptionChangeView)
  | EncryptionKeyRefreshComplete (packet : EncryptionKeyRefreshCompleteView)
  | RemoteOobDataRequest (packet : RemoteOobDataRequestView)
  | UserPasskeyNotification (packet : UserPasskeyNotificationView)
  | KeypressNotification (packet : KeypressNotificationView)
  | UserConfirmationRequest (packet : UserConfirmationRequestView)
  | UserPasskeyRequest (packet : UserPasskeyRequestView)
  deriving DecidableEq

/-- The overloaded `OnReceive`: the overload is chosen by the packet type. -/
def OnReceive (h : ClassicPairingHandler) : Event → Outcome
  | Event.ChangeConnectionLinkKeyComplete packet =>
    OnReceive_ChangeConnectionLinkKeyCompleteView h packet
  | Event.MasterLinkKeyComplete packet => OnReceive_MasterLinkKeyCompleteView h packet
  | Event.PinCodeRequest packet => OnReceive_PinCodeRequestView h packet
  | Event.LinkKeyRequest packet => OnReceive_LinkKeyRequestView h packet
  | Event.LinkKeyNotification packet => OnReceive_LinkKeyNotificationView h packet
  | Event.IoCapabilityRequest packet => OnReceive_IoCapabilityRequestView h packet
  | Event.IoCapabilityResponse packet => OnReceive_IoCapabilityResponseView h packet
  | Event.SimplePairingComplete packet => OnReceive_SimplePairingCompleteView h packet
  | Event.ReturnLinkKeys packet => OnReceive_ReturnLinkKeysView h packet
  | Event.EncryptionChange packet => OnReceive_EncryptionChangeView h packet
  | Event.EncryptionKeyRefreshComplete packet =>
    OnReceive_EncryptionKeyRefreshCompleteView h packet
  | Event.RemoteOobDataRequest packet => OnReceive_RemoteOobDataRequestView h packet
  | Event.UserPasskeyNotification packet => OnReceive_UserPasskeyNotificationView h packet
  | Event.KeypressNotification packet => OnReceive_KeypressNotificationView h packet
  | Event.UserConfirmationRequest packet => OnReceive_UserConfirmationRequestView h packet
  | Event.UserPasskeyRequest packet => OnReceive_UserPasskeyRequestView h packet

/-- The validity predicate of an event packet. -/
def Event.IsValid : Event → Bool
  | Event.ChangeConnectionLinkKeyComplete packet => packet.IsValid
  | Event.MasterLinkKeyComplete packet => packet.IsValid
  | Event.PinCodeRequest packet => packet.IsValid
  | Event.LinkKeyRequest packet => packet.IsValid
  | Event.LinkKeyNotification packet => packet.IsValid
  | Event.IoCapabilityRequest packet => packet.IsValid
  | Event.IoCapabilityResponse packet => packet.IsValid
  | Event.SimplePairingComplete packet => packet.IsValid
  | Event.ReturnLinkKeys packet => packet.IsValid
  | Event.EncryptionChange packet => packet.IsValid
  | Event.EncryptionKeyRefreshComplete packet => packet.IsValid
  | Event.RemoteOobDataRequest packet => packet.IsValid
  | Event.UserPasskeyNotification packet => packet.IsValid
  | Event.KeypressNotification packet => packet.IsValid
  | Event.UserConfirmationRequest packet => packet.IsValid
  | Event.UserPasskeyRequest packet => packet.IsValid

/-- The device address embedded in an event packet, for the packets above that
have one. -/
def Event.GetBdAddr : Event → Option Address
  | Event.PinCodeRequest packet => some packet.GetBdAddr
  | Event.LinkKeyRequest packet => some packet.GetBdAddr
  | Event.LinkKeyNotification packet => some packet.GetBdAddr
  | Event.IoCapabilityRequest packet => some packet.GetBdAddr
  | Event.IoCapabilityResponse packet => some packet.GetBdAddr
  | Event.SimplePairingComplete packet => some packet.GetBdAddr
  | Event.RemoteOobDataRequest packet => some packet.GetBdAddr
  | Event.UserPasskeyNotification packet => some packet.GetBdAddr
  | Event.KeypressNotification packet => some packet.GetBdAddr
  | Event.UserConfirmationRequest packet => some packet.GetBdAddr
  | Event.UserPasskeyRequest packet => some packet.GetBdAddr
  | Event.ChangeConnectionLinkKeyComplete _ => none
  | Event.MasterLinkKeyComplete _ => none
  | Event.ReturnLinkKeys _ => none
  | Event.EncryptionChange _ => none
  | Event.EncryptionKeyRefreshComplete _ => none

/-- Whether the event is a keypress notification. -/
def Event.isKeypressNotification : Event → Bool
  | Event.KeypressNotification _ => true
  | _ => false

/-- Whether the event is a link-key notification. -/
def Event.isLinkKeyNotification : Event → Bool
  | Event.LinkKeyNotification _ => true
  | _ => false

/-- One call into the handler: a public member function, one of the five
callbacks bound in the translation unit, or an event. -/
inductive Entry where
  | Initiate (locally_initiated : Bool) (io_capability : IoCapability)
      (oob_present : OobDataPresent) (auth_requirements : AuthenticationRequirements)
  | Cancel
  | OnRegistrationComplete (result : RegistrationResult)
      (fixed_channel_service : Option FixedChannelService)
  | OnUnregistered
  | OnConnectionOpen (fixed_channel : FixedChannel)
  | OnConnectionFail (result : ConnectionResult)
  | OnConnectionClose (error_code : ErrorCode)
  | OnReceive (event : Event)
  deriving DecidableEq

/-- Whether the entry is a call of `Initiate`. -/
def Entry.isInitiate : Entry → Bool
  | Entry.Initiate _ _ _ _ => true
  | _ => false

/-- Whether the entry is the delivery of a link-key notification. -/
def Entry.isLinkKeyNotification : Entry → Bool
  | Entry.OnReceive event => event.isLinkKeyNotification
  | _ => false

/-- Run one entry on the handler. -/
def step (h : ClassicPairingHandler) : Entry → Outcome
  | Entry.Initiate locally_initiated io_capability oob_present auth_requirements =>
    Initiate h locally_initiated io_capability oob_present auth_requirements
  | Entry.Cancel => Cancel h
  | Entry.OnRegistrationComplete result fixed_channel_service =>
    OnRegistrationComplete h result fixed_channel_service
  | Entry.OnUnregistered => OnUnregistered h
  | Entry.OnConnectionOpen fixed_channel => OnConnectionOpen h fixed_channel
  | Entry.OnConnectionFail result => OnConnectionFail h result
  | Entry.OnConnectionClose error_code => OnConnectionClose h error_code
  | Entry.OnReceive event => OnReceive h event

/-- Run the entries one after the other on the security handler thread; a
failed assertion stops the run. -/
def run (h : ClassicPairingHandler) : List Entry → Outcome
  | [] => Outcome.ret h
  | entry :: rest =>
    let first := step h entry
    match first.abort with
    | some _ => first
    | none =>
      let later := run first.handler rest
      { handler := later.handler, calls := first.calls ++ later.calls, abort := later.abort }

/-- Number of executions of `complete_callback_.Run` among the calls. -/
def countRun : List Call → Nat
  | [] => 0
  | Call.Run _ _ :: rest => countRun rest + 1
  | _ :: rest => countRun rest

/-- Number of invocations of the completion callback among the calls: the
executions of `complete_callback_.Run` that find the callback bound. -/
def countCompletion : List Call → Nat
  | [] => 0
  | Call.Run OnceCallback.bound _ :: rest => countCompletion rest + 1
  | _ :: rest => countCompletion rest

/-- Number of `Release` calls among the calls. -/
def countRelease : List Call → Nat
  | [] => 0
  | Call.Release _ :: rest => countRelease rest + 1
  | _ :: rest => countRelease rest

/-- Number of `Unregister` calls among the calls. -/
def countUnregister : List Call → Nat
  | [] => 0
  | Call.Unregister _ :: rest => countUnregister rest + 1
  | _ :: rest => countUnregister rest

/-- The `AutoConfirmNow` pairs as the specification lists them: (DisplayOnly,
DisplayOnly), (DisplayOnly, NoInputNoOutput), (NoInputNoOutput, any) and
(KeyboardOnly, NoInputNoOutput). -/
def specAutoConfirmNow : IoCapability → IoCapability → Bool
  | IoCapability.DISPLAY_ONLY, IoCapability.DISPLAY_ONLY => true
  | IoCapability.DISPLAY_ONLY, IoCapability.NO_INPUT_NO_OUTPUT => true
  | IoCapability.NO_INPUT_NO_OUTPUT, _ => true
  | IoCapability.KEYBOARD_ONLY, IoCapability.NO_INPUT_NO_OUTPUT => true
  | _, _ => false

/-- A sample handler before `Initiate`, for the record of device 1: no service,
no channel, the completion callback bound; the capability fields hold sample
values. -/
def sampleHandler : ClassicPairingHandler :=
  { record_ :=
      { device_ := 1, bonded_ := false, paired_ := false, link_key_ := [], 
        key_type_ := KeyType.COMBINATION }
    fixed_channel_service_ := none
    fixed_channel_ := none
    locally_initiated_ := false
    local_io_capability_ := IoCapability.DISPLAY_YES_NO
    local_oob_present_ := OobDataPresent.NOT_PRESENT
    local_authentication_requirements_ := AuthenticationRequirements.GENERAL_BONDING
    remote_io_capability_ := IoCapability.DISPLAY_YES_NO
    complete_callback_ := OnceCallback.bound }

/-- The values an IO-capability reply is built from: the bound address, the
local IO capability and the local authentication requirements. -/
def replyParameters (h : ClassicPairingHandler) :
    Address × IoCapability × AuthenticationRequirements :=
  (h.record_.device_, h.local_io_capability_, h.local_authentication_requirements_)

/-- The specification's `ChannelOpen` condition followed along the calls made:
a channel has been acquired and `Release` has not been called since. -/
def specChannelOpenFrom (channel_open : Bool) : List Call → Bool
  | [] => channel_open
  | Call.Acquire _ :: rest => specChannelOpenFrom true rest
  | Call.Release _ :: rest => specChannelOpenFrom false rest
  | _ :: rest => specChannelOpenFrom channel_open rest

/-- The specification's `ChannelOpen` condition for a session that started
without a channel and has made the given calls. -/
def specChannelOpen (calls : List Call) : Bool :=
  specChannelOpenFrom false calls

/-- The events the specification lists as defined no-ops: change-link-key
complete, master-link-key complete, return-link-keys, encryption change,
encryption key-refresh complete, remote-OOB-data request, user-passkey
notification, user-passkey request and keypress notification. -/
def Event.isDefinedNoOp : Event → Bool
  | Event.ChangeConnectionLinkKeyComplete _ => true
  | Event.MasterLinkKeyComplete _ => true
  | Event.ReturnLinkKeys _ => true
  | Event.EncryptionChange _ => true
  | Event.EncryptionKeyRefreshComplete _ => true
  | Event.RemoteOobDataRequest _ => true
  | Event.UserPasskeyNotification _ => true
  | Event.UserPasskeyRequest _ => true
  | Event.KeypressNotification _ => true
  | _ => false

/-! ## Shared lemmas -/

theorem Cancel_handler (h : ClassicPairingHandler) : (Cancel h).handler = h := rfl

theorem Cancel_abort (h : ClassicPairingHandler) : (Cancel h).abort = none := rfl

/-- The user-confirmation handler never changes the handler. -/
theorem OnReceive_UserConfirmationRequestView_handler (h : ClassicPairingHandler)
    (packet : UserConfirmationRequestView) :
    (OnReceive_UserConfirmationRequestView h packet).handler = h := by
  unfold OnReceive_UserConfirmationRequestView
  split_ifs
  · rfl
  · rfl
  · cases initiator_io_capability h <;> cases responder_io_capability h <;> rfl

/-- The keypress handler never changes the handler. -/
theorem OnReceive_KeypressNotificationView_handler (h : ClassicPairingHandler)
    (packet : KeypressNotificationView) :
    (OnReceive_KeypressNotificationView h packet).handler = h := by
  unfold OnReceive_KeypressNotificationView
  split_ifs
  · rfl
  · cases packet.GetNotificationType <;> rfl

/-- Every event other than a link-key notification leaves the record alone. -/
theorem OnReceive_record (h : ClassicPairingHandler) (event : Event)
    (hnot : event.isLinkKeyNotification = false) :
    (OnReceive h event).handler.record_ = h.record_ := by
  cases event with
  | LinkKeyNotification packet => simp [Event.isLinkKeyNotification] at hnot
  | UserConfirmationRequest packet =>
    simp only [OnReceive, OnReceive_UserConfirmationRequestView_handler]
  | KeypressNotification packet =>
    simp only [OnReceive, OnReceive_KeypressNotificationView_handler]
  | _ =>
    simp only [OnReceive, OnReceive_ChangeConnectionLinkKeyCompleteView,
      OnReceive_MasterLinkKeyCompleteView, OnReceive_PinCodeRequestView,
      OnReceive_LinkKeyRequestView, OnReceive_IoCapabilityRequestView,
      OnReceive_IoCapabilityResponseView, OnReceive_SimplePairingCompleteView,
      OnReceive_ReturnLinkKeysView, OnReceive_EncryptionChangeView,
      OnReceive_EncryptionKeyRefreshCompleteView, OnReceive_RemoteOobDataRequestView,
      OnReceive_UserPasskeyNotificationView, OnReceive_UserPasskeyRequestView]
    split_ifs <;> rfl

/-- No event changes the values an IO-capability reply is built from. -/
theorem OnReceive_replyParameters (h : ClassicPairingHandler) (event : Event) :
    replyParameters (OnReceive h event).handler = replyParameters h := by
  cases event with
  | UserConfirmationRequest packet =>
    simp only [OnReceive, OnReceive_UserConfirmationRequestView_handler]
  | KeypressNotification packet =>
    simp only [OnReceive, OnReceive_KeypressNotificationView_handler]
  | _ =>
    simp only [OnReceive, OnReceive_ChangeConnectionLinkKeyCompleteView,
      OnReceive_MasterLinkKeyCompleteView, OnReceive_PinCodeRequestView,
      OnReceive_LinkKeyRequestView, OnReceive_LinkKeyNotificationView,
      OnReceive_IoCapabilityRequestView,
      OnReceive_IoCapabilityResponseView, OnReceive_SimplePairingCompleteView,
      OnReceive_ReturnLinkKeysView, OnReceive_EncryptionChangeView,
      OnReceive_EncryptionKeyRefreshCompleteView, OnReceive_RemoteOobDataRequestView,
      OnReceive_UserPasskeyNotificationView, OnReceive_UserPasskeyRequestView]
    split_ifs <;> rfl

/-- No entry other than `Initiate` changes the values an IO-capability reply is
built from. -/
theorem step_replyParameters (h : ClassicPairingHandler) (entry : Entry)
    (hnot : entry.isInitiate = false) :
    replyParameters (step h entry).handler = replyParameters h := by
  cases entry with
  | Initiate li io oob auth => simp [Entry.isInitiate] at hnot
  | OnReceive event => exact OnReceive_replyParameters h event
  | OnConnectionOpen fixed_channel =>
    simp only [step, OnConnectionOpen]
    cases h.fixed_channel_ <;> rfl
  | OnConnectionClose error_code =>
    simp only [step, OnConnectionClose]
    cases h.fixed_channel_ <;> rfl
  | _ => rfl

/-- A run without `Initiate` keeps the values an IO-capability reply is built
from. -/
theorem run_replyParameters (entries : List Entry) :
    ∀ h : ClassicPairingHandler, (∀ entry ∈ entries, entry.isInitiate = false) →
      replyParameters (run h entries).handler = replyParameters h := by
  induction entries with
  | nil => intro h _; rfl
  | cons entry rest ih =>
    intro h hall
    have hfirst := step_replyParameters h entry (hall entry (List.mem_cons_self _ _))
    have hrest := ih (step h entry).handler
      (fun e he => hall e (List.mem_cons_of_mem _ he))
    simp only [run]
    cases habort : (step h entry).abort with
    | some a => simpa using hfirst
    | none => simpa [hrest] using hfirst

/-- `Cancel` never calls `Acquire`. -/
theorem Cancel_no_Acquire (h : ClassicPairingHandler) (fixed_channel : FixedChannel) :
    Call.Acquire fixed_channel ∉ (Cancel h).calls := by
  unfold Cancel
  cases h.fixed_channel_ <;> cases h.fixed_channel_service_ <;> simp

/-- No event changes `fixed_channel_`. -/
theorem OnReceive_fixed_channel (h : ClassicPairingHandler) (event : Event) :
    (OnReceive h event).handler.fixed_channel_ = h.fixed_channel_ := by
  cases event with
  | UserConfirmationRequest packet =>
    simp only [OnReceive, OnReceive_UserConfirmationRequestView_handler]
  | KeypressNotification packet =>
    simp only [OnReceive, OnReceive_KeypressNotificationView_handler]
  | _ =>
    simp only [OnReceive, OnReceive_ChangeConnectionLinkKeyCompleteView,
      OnReceive_MasterLinkKeyCompleteView, OnReceive_PinCodeRequestView,
      OnReceive_LinkKeyRequestView, OnReceive_LinkKeyNotificationView,
      OnReceive_IoCapabilityRequestView,
      OnReceive_IoCapabilityResponseView, OnReceive_SimplePairingCompleteView,
      OnReceive_ReturnLinkKeysView, OnReceive_EncryptionChangeView,
      OnReceive_EncryptionKeyRefreshCompleteView, OnReceive_RemoteOobDataRequestView,
      OnReceive_UserPasskeyNotificationView, OnReceive_UserPasskeyRequestView]
    split_ifs <;> rfl

/-- No event handler calls `Acquire`. -/
theorem OnReceive_no_Acquire (h : ClassicPairingHandler) (event : Event)
    (fixed_channel : FixedChannel) :
    Call.Acquire fixed_channel ∉ (OnReceive h event).calls := by
  cases event with
  | UserConfirmationRequest packet =>
    simp only [OnReceive, OnReceive_UserConfirmationRequestView]
    split_ifs
    · simp [Outcome.fail]
    · simp [Outcome.fail]
    · cases initiator_io_capability h <;> cases responder_io_capability h <;>
        simp [sendUserConfirmationRequestReply, Outcome.ret]
  | KeypressNotification packet =>
    simp only [OnReceive, OnReceive_KeypressNotificationView]
    split_ifs
    · simp [Outcome.fail]
    · cases packet.GetNotificationType <;> simp [Outcome.ret]
  | SimplePairingComplete packet =>
    simp only [OnReceive, OnReceive_SimplePairingCompleteView]
    split_ifs
    · simp [Outcome.fail]
    · simp [Outcome.fail]
    · exact Cancel_no_Acquire h fixed_channel
  | _ =>
    simp only [OnReceive, OnReceive_ChangeConnectionLinkKeyCompleteView,
      OnReceive_MasterLinkKeyCompleteView, OnReceive_PinCodeRequestView,
      OnReceive_LinkKeyRequestView, OnReceive_LinkKeyNotificationView,
      OnReceive_IoCapabilityRequestView,
      OnReceive_IoCapabilityResponseView,
      OnReceive_ReturnLinkKeysView, OnReceive_EncryptionChangeView,
      OnReceive_EncryptionKeyRefreshCompleteView, OnReceive_RemoteOobDataRequestView,
      OnReceive_UserPasskeyNotificationView, OnReceive_UserPasskeyRequestView]
    split_ifs <;> simp [Outcome.fail, Outcome.ret]

/-- An entry run on a session that holds a channel keeps that channel and
calls no `Acquire`. -/
theorem step_channel_held (h : ClassicPairingHandler) (entry : Entry) (held : FixedChannel)
    (hheld : h.fixed_channel_ = some held) :
    (step h entry).handler.fixed_channel_ = some held
    ∧ ∀ fixed_channel, Call.Acquire fixed_channel ∉ (step h entry).calls := by
  cases entry with
  | OnReceive event =>
    exact ⟨by rw [step, OnReceive_fixed_channel, hheld], OnReceive_no_Acquire h event⟩
  | OnConnectionOpen fixed_channel =>
    simp [step, OnConnectionOpen, hheld, Outcome.fail]
  | OnConnectionClose error_code =>
    simp only [step, OnConnectionClose, hheld]
    exact ⟨hheld, Cancel_no_Acquire h⟩
  | Cancel => exact ⟨hheld, Cancel_no_Acquire h⟩
  | OnConnectionFail result => exact ⟨hheld, Cancel_no_Acquire h⟩
  | Initiate li io oob auth => simp [step, Initiate, hheld]
  | OnRegistrationComplete result service => simp [step, OnRegistrationComplete, hheld]
  | OnUnregistered => simp [step, OnUnregistered, hheld]

/-- An entry run on a session that holds no channel either leaves it without a
channel and calls no `Acquire`, or is the connection-opened callback, which
stores the channel and acquires exactly it. -/
theorem step_channel_absent (h : ClassicPairingHandler) (entry : Entry)
    (habsent : h.fixed_channel_ = none) :
    ((step h entry).handler.fixed_channel_ = none
      ∧ ∀ fixed_channel, Call.Acquire fixed_channel ∉ (step h entry).calls)
    ∨ ∃ opened, (step h entry).handler.fixed_channel_ = some opened
        ∧ ∀ fixed_channel, Call.Acquire fixed_channel ∈ (step h entry).calls ↔
            fixed_channel = opened := by
  cases entry with
  | OnReceive event =>
    exact Or.inl ⟨by rw [step, OnReceive_fixed_channel, habsent], OnReceive_no_Acquire h event⟩
  | OnConnectionOpen fixed_channel =>
    refine Or.inr ⟨fixed_channel, ?_, ?_⟩
    · simp [step, OnConnectionOpen, habsent]
    · intro c
      simp [step, OnConnectionOpen, habsent]
  | OnConnectionClose error_code =>
    simp [step, OnConnectionClose, habsent, Outcome.fail]
  | Cancel => exact Or.inl ⟨habsent, Cancel_no_Acquire h⟩
  | OnConnectionFail result => exact Or.inl ⟨habsent, Cancel_no_Acquire h⟩
  | Initiate li io oob auth => simp [step, Initiate, habsent]
  | OnRegistrationComplete result service => simp [step, OnRegistrationComplete, habsent]
  | OnUnregistered => simp [step, OnUnregistered, habsent]

/-- The calls of a run are those of its first entry followed, when that entry
returned, by those of the rest. -/
theorem run_cons (h : ClassicPairingHandler) (entry : Entry) (rest : List Entry) :
    run h (entry :: rest)
      = match (step h entry).abort with
        | some _ => step h entry
        | none =>
          { handler := (run (step h entry).handler rest).handler
            calls := (step h entry).calls ++ (run (step h entry).handler rest).calls
            abort := (run (step h entry).handler rest).abort } := rfl

/-- A run on a session that holds a channel keeps that channel and calls no
`Acquire`. -/
theorem run_channel_held (entries : List Entry) :
    ∀ (h : ClassicPairingHandler) (held : FixedChannel), h.fixed_channel_ = some held →
      (run h entries).handler.fixed_channel_ = some held
      ∧ ∀ fixed_channel, Call.Acquire fixed_channel ∉ (run h entries).calls := by
  induction entries with
  | nil =>
    intro h held hheld
    simp [run, Outcome.ret, hheld]
  | cons entry rest ih =>
    intro h held hheld
    obtain ⟨hfirst, hcalls⟩ := step_channel_held h entry held hheld
    rw [run_cons]
    cases habort : (step h entry).abort with
    | some a => exact ⟨hfirst, hcalls⟩
    | none =>
      obtain ⟨hlater, hlatercalls⟩ := ih (step h entry).handler held hfirst
      refine ⟨hlater, ?_⟩
      intro c hmem
      rcases List.mem_append.mp hmem with hm | hm
      · exact hcalls c hm
      · exact hlatercalls c hm

/-- After a run on a session that held no channel, the session holds a channel
exactly when the run called `Acquire` on it. -/
theorem run_channel_absent (entries : List Entry) :
    ∀ (h : ClassicPairingHandler), h.fixed_channel_ = none →
      ∀ fixed_channel, (run h entries).handler.fixed_channel_ = some fixed_channel ↔
        Call.Acquire fixed_channel ∈ (run h entries).calls := by
  induction entries with
  | nil =>
    intro h habsent c
    simp [run, Outcome.ret, habsent]
  | cons entry rest ih =>
    intro h habsent c
    rw [run_cons]
    rcases step_channel_absent h entry habsent with ⟨hnone, hcalls⟩ | ⟨opened, hopened, hcalls⟩
    · cases habort : (step h entry).abort with
      | some a =>
        simp only [hnone]
        constructor
        · intro hcontra
          cases hcontra
        · intro hmem
          exact absurd hmem (hcalls c)
      | none =>
        simp only [List.mem_append]
        rw [ih (step h entry).handler hnone c]
        constructor
        · intro hmem
          exact Or.inr hmem
        · rintro (hmem | hmem)
          · exact absurd hmem (hcalls c)
          · exact hmem
    · cases habort : (step h entry).abort with
      | some a =>
        simp only [hopened, Option.some.injEq]
        rw [hcalls c]
        exact eq_comm
      | none =>
        obtain ⟨hlater, hlatercalls⟩ := run_channel_held rest (step h entry).handler opened hopened
        simp only [List.mem_append, hlater, Option.some.injEq]
        rw [hcalls c]
        constructor
        · intro heq
          exact Or.inl heq.symm
        · rintro (heq | hmem)
          · exact heq.symm
          · exact absurd hmem (hlatercalls c)

/-- The `ChannelOpen` condition can only become true through an `Acquire`. -/
theorem specChannelOpenFrom_acquired (calls : List Call) :
    ∀ channel_open : Bool, specChannelOpenFrom channel_open calls = true →
      channel_open = true ∨ ∃ fixed_channel, Call.Acquire fixed_channel ∈ calls := by
  induction calls with
  | nil =>
    intro channel_open hopen
    exact Or.inl hopen
  | cons call rest ih =>
    intro channel_open hopen
    cases call with
    | Acquire fixed_channel => exact Or.inr ⟨fixed_channel, List.mem_cons_self _ _⟩
    | Release fixed_channel =>
      rcases ih false hopen with hfalse | ⟨c, hc⟩
      · cases hfalse
      · exact Or.inr ⟨c, List.mem_cons_of_mem _ hc⟩
    | _ =>
      rcases ih channel_open hopen with htrue | ⟨c, hc⟩
      · exact Or.inl htrue
      · exact Or.inr ⟨c, List.mem_cons_of_mem _ hc⟩

/-- `countRun` of two call lists in a row. -/
theorem countRun_append (first later : List Call) :
    countRun (first ++ later) = countRun first + countRun later := by
  induction first with
  | nil => simp [countRun]
  | cons call rest ih =>
    cases call <;> simp [countRun, ih]
    omega

/-- `countCompletion` of two call lists in a row. -/
theorem countCompletion_append (first later : List Call) :
    countCompletion (first ++ later) = countCompletion first + countCompletion later := by
  induction first with
  | nil => simp [countCompletion]
  | cons call rest ih =>
    cases call with
    | Run complete_callback address =>
      cases complete_callback <;> simp [countCompletion, ih]
      omega
    | _ => simp [countCompletion, ih]

/-- Every invocation of the completion callback is an execution of `Run`. -/
theorem countCompletion_le_countRun (calls : List Call) :
    countCompletion calls ≤ countRun calls := by
  induction calls with
  | nil => simp [countCompletion, countRun]
  | cons call rest ih =>
    cases call with
    | Run complete_callback address =>
      cases complete_callback <;> simp [countCompletion, countRun] <;> omega
    | _ => simpa [countCompletion, countRun] using ih

/-- `Cancel` never executes `complete_callback_.Run`. -/
theorem Cancel_countRun (h : ClassicPairingHandler) : countRun (Cancel h).calls = 0 := by
  unfold Cancel
  cases h.fixed_channel_ <;> cases h.fixed_channel_service_ <;> simp [countRun]

/-- No event handler executes `complete_callback_.Run`. -/
theorem OnReceive_countRun (h : ClassicPairingHandler) (event : Event) :
    countRun (OnReceive h event).calls = 0 := by
  cases event with
  | UserConfirmationRequest packet =>
    simp only [OnReceive, OnReceive_UserConfirmationRequestView]
    split_ifs
    · simp [Outcome.fail, countRun]
    · simp [Outcome.fail, countRun]
    · cases initiator_io_capability h <;> cases responder_io_capability h <;>
        simp [sendUserConfirmationRequestReply, Outcome.ret, countRun]
  | KeypressNotification packet =>
    simp only [OnReceive, OnReceive_KeypressNotificationView]
    split_ifs
    · simp [Outcome.fail, countRun]
    · cases packet.GetNotificationType <;> simp [Outcome.ret, countRun]
  | SimplePairingComplete packet =>
    simp only [OnReceive, OnReceive_SimplePairingCompleteView]
    split_ifs
    · simp [Outcome.fail, countRun]
    · simp [Outcome.fail, countRun]
    · exact Cancel_countRun h
  | _ =>
    simp only [OnReceive, OnReceive_ChangeConnectionLinkKeyCompleteView,
      OnReceive_MasterLinkKeyCompleteView, OnReceive_PinCodeRequestView,
      OnReceive_LinkKeyRequestView, OnReceive_LinkKeyNotificationView,
      OnReceive_IoCapabilityRequestView,
      OnReceive_IoCapabilityResponseView,
      OnReceive_ReturnLinkKeysView, OnReceive_EncryptionChangeView,
      OnReceive_EncryptionKeyRefreshCompleteView, OnReceive_RemoteOobDataRequestView,
      OnReceive_UserPasskeyNotificationView, OnReceive_UserPasskeyRequestView]
    split_ifs <;> simp [Outcome.fail, Outcome.ret, countRun]

/-- No event changes `complete_callback_`. -/
theorem OnReceive_complete_callback (h : ClassicPairingHandler) (event : Event) :
    (OnReceive h event).handler.complete_callback_ = h.complete_callback_ := by
  cases event with
  | UserConfirmationRequest packet =>
    simp only [OnReceive, OnReceive_UserConfirmationRequestView_handler]
  | KeypressNotification packet =>
    simp only [OnReceive, OnReceive_KeypressNotificationView_handler]
  | _ =>
    simp only [OnReceive, OnReceive_ChangeConnectionLinkKeyCompleteView,
      OnReceive_MasterLinkKeyCompleteView, OnReceive_PinCodeRequestView,
      OnReceive_LinkKeyRequestView, OnReceive_LinkKeyNotificationView,
      OnReceive_IoCapabilityRequestView,
      OnReceive_IoCapabilityResponseView, OnReceive_SimplePairingCompleteView,
      OnReceive_ReturnLinkKeysView, OnReceive_EncryptionChangeView,
      OnReceive_EncryptionKeyRefreshCompleteView, OnReceive_RemoteOobDataRequestView,
      OnReceive_UserPasskeyNotificationView, OnReceive_UserPasskeyRequestView]
    split_ifs <;> rfl

/-- Only the unregistration-complete callback executes `complete_callback_.Run`:
every other entry makes no such call. -/
theorem step_countRun (h : ClassicPairingHandler) (entry : Entry)
    (hother : entry ≠ Entry.OnUnregistered) : countRun (step h entry).calls = 0 := by
  cases entry with
  | OnUnregistered => exact absurd rfl hother
  | OnReceive event => exact OnReceive_countRun h event
  | OnConnectionOpen fixed_channel =>
    simp only [step, OnConnectionOpen]
    cases h.fixed_channel_ <;> simp [Outcome.fail, countRun]
  | OnConnectionClose error_code =>
    simp only [step, OnConnectionClose]
    cases hch : h.fixed_channel_ with
    | none => simp [Outcome.fail, countRun]
    | some c => exact Cancel_countRun h
  | Cancel => exact Cancel_countRun h
  | OnConnectionFail result => exact Cancel_countRun h
  | Initiate li io oob auth => simp [step, Initiate, countRun]
  | OnRegistrationComplete result service => simp [step, OnRegistrationComplete, countRun]

/-- Only the unregistration-complete callback touches `complete_callback_`. -/
theorem step_complete_callback (h : ClassicPairingHandler) (entry : Entry)
    (hother : entry ≠ Entry.OnUnregistered) :
    (step h entry).handler.complete_callback_ = h.complete_callback_ := by
  cases entry with
  | OnUnregistered => exact absurd rfl hother
  | OnReceive event => exact OnReceive_complete_callback h event
  | OnConnectionOpen fixed_channel =>
    simp only [step, OnConnectionOpen]
    cases h.fixed_channel_ <;> rfl
  | OnConnectionClose error_code =>
    simp only [step, OnConnectionClose]
    cases h.fixed_channel_ <;> rfl
  | _ => rfl

/-- An entry either does not invoke the completion callback, or invokes it once
and leaves it moved from. -/
theorem step_countCompletion (h : ClassicPairingHandler) (entry : Entry) :
    countCompletion (step h entry).calls = 0
    ∨ (countCompletion (step h entry).calls = 1
        ∧ (step h entry).handler.complete_callback_ = OnceCallback.moved_from) := by
  by_cases hentry : entry = Entry.OnUnregistered
  · subst hentry
    cases hcb : h.complete_callback_ with
    | bound => exact Or.inr ⟨by simp [step, OnUnregistered, hcb, countCompletion], rfl⟩
    | moved_from => exact Or.inl (by simp [step, OnUnregistered, hcb, countCompletion])
  · have hle := countCompletion_le_countRun (step h entry).calls
    rw [step_countRun h entry hentry] at hle
    exact Or.inl (Nat.le_zero.mp hle)

/-- Once the completion callback is moved from, no entry invokes it and it stays
moved from. -/
theorem step_moved_from (h : ClassicPairingHandler) (entry : Entry)
    (hmoved : h.complete_callback_ = OnceCallback.moved_from) :
    countCompletion (step h entry).calls = 0
    ∧ (step h entry).handler.complete_callback_ = OnceCallback.moved_from := by
  by_cases hentry : entry = Entry.OnUnregistered
  · subst hentry
    exact ⟨by simp [step, OnUnregistered, hmoved, countCompletion], rfl⟩
  · have hle := countCompletion_le_countRun (step h entry).calls
    rw [step_countRun h entry hentry] at hle
    exact ⟨Nat.le_zero.mp hle, by rw [step_complete_callback h entry hentry, hmoved]⟩

/-- Once the completion callback is moved from, no run invokes it. -/
theorem run_moved_from (entries : List Entry) :
    ∀ h : ClassicPairingHandler, h.complete_callback_ = OnceCallback.moved_from →
      countCompletion (run h entries).calls = 0 := by
  induction entries with
  | nil =>
    intro h _
    simp [run, Outcome.ret, countCompletion]
  | cons entry rest ih =>
    intro h hmoved
    obtain ⟨hzero, hstays⟩ := step_moved_from h entry hmoved
    rw [run_cons]
    cases habort : (step h entry).abort with
    | some a => exact hzero
    | none =>
      simp only [countCompletion_append, hzero, ih (step h entry).handler hstays]

/-- Every run invokes the completion callback at most once. -/
theorem run_countCompletion (entries : List Entry) :
    ∀ h : ClassicPairingHandler, countCompletion (run h entries).calls ≤ 1 := by
  induction entries with
  | nil =>
    intro h
    simp [run, Outcome.ret, countCompletion]
  | cons entry rest ih =>
    intro h
    rw [run_cons]
    rcases step_countCompletion h entry with hzero | ⟨hone, hmoved⟩
    · cases habort : (step h entry).abort with
      | some a => simp [hzero]
      | none =>
        simp only [countCompletion_append, hzero, Nat.zero_add]
        exact ih (step h entry).handler
    · cases habort : (step h entry).abort with
      | some a => simp [hone]
      | none =>
        simp only [countCompletion_append, hone,
          run_moved_from rest (step h entry).handler hmoved]
        exact Nat.le_refl _

/-! ## Cancel and the completion callback -/

/-- C1 (the code departs from the claim): `Cancel` leaves both pointers as they
were, so a second `Cancel()` right after a first one on a session that holds a
channel and a registration calls `Release` on the same channel and `Unregister`
on the same service once more: two `Release` calls for one `Acquire`. -/
theorem Cancel_twice_repeats_Release_and_Unregister (h : ClassicPairingHandler)
    (fixed_channel : FixedChannel) (fixed_channel_service : FixedChannelService) :
    (Cancel (Cancel { h with
        fixed_channel_ := some fixed_channel
        fixed_channel_service_ := some fixed_channel_service }).handler).calls
      = [Call.Release fixed_channel, Call.Unregister fixed_channel_service]
    ∧ (run { h with
        fixed_channel_ := some fixed_channel
        fixed_channel_service_ := some fixed_channel_service } [Entry.Cancel, Entry.Cancel]).calls
      = [Call.Release fixed_channel, Call.Unregister fixed_channel_service,
         Call.Release fixed_channel, Call.Unregister fixed_channel_service]
    ∧ countRelease (run { h with
        fixed_channel_ := some fixed_channel
        fixed_channel_service_ := some fixed_channel_service } [Entry.Cancel, Entry.Cancel]).calls
      = 2
    ∧ countUnregister (run { h with
        fixed_channel_ := some fixed_channel
        fixed_channel_service_ := some fixed_channel_service } [Entry.Cancel, Entry.Cancel]).calls
      = 2 := by
  refine ⟨rfl, rfl, rfl, rfl⟩

/-- C2: along every run of entries, from any state of the session, the
completion callback is invoked at most once: `complete_callback_` is moved
from by its first `Run`, and no entry binds it again.  In the run `Initiate`,
registration complete, connection open, simple-pairing complete, channel
closed and the two unregistration completions that answer the two `Unregister`
requests, it is invoked exactly once. -/
theorem completion_invoked_at_most_once (h : ClassicPairingHandler) (entries : List Entry) :
    countCompletion (run h entries).calls ≤ 1
    ∧ countUnregister (run sampleHandler
      [ Entry.Initiate true IoCapability.DISPLAY_ONLY OobDataPresent.NOT_PRESENT
          AuthenticationRequirements.GENERAL_BONDING,
        Entry.OnRegistrationComplete RegistrationResult.SUCCESS (some 3),
        Entry.OnConnectionOpen 7,
        Entry.OnReceive (Event.SimplePairingComplete
          { IsValid := true, GetStatus := 0, GetBdAddr := 1 }),
        Entry.OnConnectionClose 0 ]).calls = 2
    ∧ countCompletion (run sampleHandler
      [ Entry.Initiate true IoCapability.DISPLAY_ONLY OobDataPresent.NOT_PRESENT
          AuthenticationRequirements.GENERAL_BONDING,
        Entry.OnRegistrationComplete RegistrationResult.SUCCESS (some 3),
        Entry.OnConnectionOpen 7,
        Entry.OnReceive (Event.SimplePairingComplete
          { IsValid := true, GetStatus := 0, GetBdAddr := 1 }),
        Entry.OnConnectionClose 0,
        Entry.OnUnregistered,
        Entry.OnUnregistered ]).calls = 1 := by
  refine ⟨run_countCompletion entries h, ?_, ?_⟩ <;> decide

/-! ## User confirmation request -/

/-- C3 (counterexample): with initiator DisplayOnly and responder DisplayYesNo,
a pair outside the listed ones, a valid request with the bound address makes
the handler send the confirmation reply. -/
theorem UserConfirmationRequest_DisplayOnly_DisplayYesNo_sends :
    specAutoConfirmNow
      (initiator_io_capability { sampleHandler with
        locally_initiated_ := true, local_io_capability_ := IoCapability.DISPLAY_ONLY })
      (responder_io_capability { sampleHandler with
        locally_initiated_ := true, local_io_capability_ := IoCapability.DISPLAY_ONLY }) = false
    ∧ (OnReceive_UserConfirmationRequestView
        { sampleHandler with
          locally_initiated_ := true, local_io_capability_ := IoCapability.DISPLAY_ONLY }
        { IsValid := true, GetBdAddr := 1 }).calls
      = [Call.SendCommand (Command.UserConfirmationRequestReply 1)] := by
  constructor <;> decide

/-- C3 (amended): for a valid user-confirmation request with the bound address
the handler sends a command exactly when the (initiator, responder) pair is one
of the listed pairs or (DisplayOnly, DisplayYesNo); the command is then the one
confirmation reply to the bound address; for every other pair nothing is sent;
the handler state never changes and the function returns. -/
theorem UserConfirmationRequest_sends_iff (h : ClassicPairingHandler)
    (packet : UserConfirmationRequestView) (hvalid : packet.IsValid = true)
    (haddr : packet.GetBdAddr = h.GetAddress) :
    (OnReceive_UserConfirmationRequestView h packet).handler = h
    ∧ (OnReceive_UserConfirmationRequestView h packet).abort = none
    ∧ ((OnReceive_UserConfirmationRequestView h packet).calls ≠ [] ↔
        (specAutoConfirmNow (initiator_io_capability h) (responder_io_capability h) = true
          ∨ (initiator_io_capability h = IoCapability.DISPLAY_ONLY
              ∧ responder_io_capability h = IoCapability.DISPLAY_YES_NO)))
    ∧ ((OnReceive_UserConfirmationRequestView h packet).calls = []
        ∨ (OnReceive_UserConfirmationRequestView h packet).calls
            = [Call.SendCommand (Command.UserConfirmationRequestReply h.GetAddress)]) := by
  simp only [OnReceive_UserConfirmationRequestView, hvalid, haddr]
  cases hi : initiator_io_capability h <;> cases hr : responder_io_capability h <;>
    simp [specAutoConfirmNow, sendUserConfirmationRequestReply, Outcome.ret]

theorem UserConfirmationRequest_sends_iff_witness :
    (OnReceive_UserConfirmationRequestView sampleHandler
        { IsValid := true, GetBdAddr := 1 }).calls = [] :=
  ((UserConfirmationRequest_sends_iff sampleHandler { IsValid := true, GetBdAddr := 1 }
    rfl rfl).2.2.2).resolve_right (by decide)

/-- C4: for a valid user-confirmation request with the bound address whose
(initiator, responder) pair is (DisplayOnly, DisplayOnly), (DisplayOnly,
NoInputNoOutput), (KeyboardOnly, NoInputNoOutput) or (NoInputNoOutput, any),
the handler sends exactly one confirmation reply addressed to the bound
address, returns, and leaves the handler and with it the record as they were. -/
theorem UserConfirmationRequest_auto_confirm (h : ClassicPairingHandler)
    (packet : UserConfirmationRequestView) (hvalid : packet.IsValid = true)
    (haddr : packet.GetBdAddr = h.GetAddress)
    (hpair : specAutoConfirmNow (initiator_io_capability h) (responder_io_capability h) = true) :
    OnReceive h (Event.UserConfirmationRequest packet)
      = { handler := h
          calls := [Call.SendCommand (Command.UserConfirmationRequestReply h.record_.device_)]
          abort := none } := by
  simp only [OnReceive, OnReceive_UserConfirmationRequestView, hvalid, haddr]
  revert hpair
  cases hi : initiator_io_capability h <;> cases hr : responder_io_capability h <;>
    simp [specAutoConfirmNow, sendUserConfirmationRequestReply, Outcome.ret,
      ClassicPairingHandler.GetAddress, SecurityRecord.GetAddress]

theorem UserConfirmationRequest_auto_confirm_witness :
    OnReceive { sampleHandler with remote_io_capability_ := IoCapability.NO_INPUT_NO_OUTPUT }
        (Event.UserConfirmationRequest { IsValid := true, GetBdAddr := 1 })
      = { handler := { sampleHandler with remote_io_capability_ := IoCapability.NO_INPUT_NO_OUTPUT }
          calls := [Call.SendCommand (Command.UserConfirmationRequestReply 1)]
          abort := none } :=
  UserConfirmationRequest_auto_confirm
    { sampleHandler with remote_io_capability_ := IoCapability.NO_INPUT_NO_OUTPUT }
    { IsValid := true, GetBdAddr := 1 } rfl rfl (by decide)

/-! ## Link key request and notification -/

/-- C5: for every record and every valid link-key request with the bound
address, a bonded or paired record gets exactly one positive reply with the
bound address and the stored link key, a record that is neither gets exactly
one negative reply with the bound address; the handler, and with it the
record, is unchanged and the function returns. -/
theorem LinkKeyRequest_reply (h : ClassicPairingHandler) (packet : LinkKeyRequestView)
    (hvalid : packet.IsValid = true) (haddr : packet.GetBdAddr = h.GetAddress) :
    ((h.record_.bonded_ = true ∨ h.record_.paired_ = true) →
      OnReceive h (Event.LinkKeyRequest packet)
        = { handler := h
            calls := [Call.SendCommand
              (Command.LinkKeyRequestReply h.record_.device_ h.record_.link_key_)]
            abort := none })
    ∧ ((h.record_.bonded_ = false ∧ h.record_.paired_ = false) →
      OnReceive h (Event.LinkKeyRequest packet)
        = { handler := h
            calls := [Call.SendCommand (Command.LinkKeyRequestNegativeReply h.record_.device_)]
            abort := none }) := by
  simp only [OnReceive, OnReceive_LinkKeyRequestView, hvalid, haddr,
    ClassicPairingHandler.GetAddress, SecurityRecord.GetAddress, SecurityRecord.IsBonded,
    SecurityRecord.IsPaired, SecurityRecord.GetLinkKey]
  constructor
  · intro hkey
    have : (h.record_.bonded_ || h.record_.paired_) = true := by
      rcases hkey with hb | hp
      · simp [hb]
      · simp [hp]
    simp [this]
  · rintro ⟨hb, hp⟩
    simp [hb, hp]

theorem LinkKeyRequest_reply_witness :
    OnReceive sampleHandler (Event.LinkKeyRequest { IsValid := true, GetBdAddr := 1 })
      = { handler := sampleHandler
          calls := [Call.SendCommand (Command.LinkKeyRequestNegativeReply 1)]
          abort := none } :=
  (LinkKeyRequest_reply sampleHandler { IsValid := true, GetBdAddr := 1 } rfl rfl).2 ⟨rfl, rfl⟩

/-- C8: whatever the record held before, a valid link-key notification with
the bound address leaves the record with the notified key and key type; every
other field of the record and of the handler is unchanged, no command is sent
and the function returns. -/
theorem LinkKeyNotification_overwrites (h : ClassicPairingHandler)
    (packet : LinkKeyNotificationView) (hvalid : packet.IsValid = true)
    (haddr : packet.GetBdAddr = h.GetAddress) :
    OnReceive h (Event.LinkKeyNotification packet)
      = { handler :=
            { h with record_ :=
                { h.record_ with
                  link_key_ := packet.GetLinkKey, key_type_ := packet.GetKeyType } }
          calls := []
          abort := none } := by
  simp [OnReceive, OnReceive_LinkKeyNotificationView, hvalid, haddr, SecurityRecord.SetLinkKey]

theorem LinkKeyNotification_overwrites_witness :
    (OnReceive { sampleHandler with record_ :=
          { sampleHandler.record_ with link_key_ := [9, 9], key_type_ := KeyType.CHANGED } }
        (Event.LinkKeyNotification
          { IsValid := true, GetBdAddr := 1, GetLinkKey := [4, 2],
            GetKeyType := KeyType.AUTHENTICATED_P256 })).handler.record_
      = { device_ := 1, bonded_ := false, paired_ := false, link_key_ := [4, 2],
          key_type_ := KeyType.AUTHENTICATED_P256 } :=
  congrArg (fun o => o.handler.record_)
    (LinkKeyNotification_overwrites
      { sampleHandler with record_ :=
          { sampleHandler.record_ with link_key_ := [9, 9], key_type_ := KeyType.CHANGED } }
      { IsValid := true, GetBdAddr := 1, GetLinkKey := [4, 2],
        GetKeyType := KeyType.AUTHENTICATED_P256 } rfl rfl)

/-! ## Fatal contract checks -/

/-- C6 (counterexample): a valid keypress notification whose embedded address 2
differs from the bound address 1 is not fatal: the handler returns normally. -/
theorem KeypressNotification_address_mismatch_returns :
    sampleHandler.GetAddress = 1
    ∧ (Event.KeypressNotification
        { IsValid := true, GetBdAddr := 2,
          GetNotificationType := KeypressNotificationType.DIGIT_ENTERED }).GetBdAddr = some 2
    ∧ OnReceive sampleHandler (Event.KeypressNotification
        { IsValid := true, GetBdAddr := 2,
          GetNotificationType := KeypressNotificationType.DIGIT_ENTERED })
      = { handler := sampleHandler, calls := [], abort := none } := by
  refine ⟨rfl, rfl, ?_⟩
  decide

/-- C6 (amended): every event with an embedded address other than a keypress
notification (PIN-code request, link-key request, link-key notification,
IO-capability request and response, simple-pairing complete, remote-OOB-data
request, user-passkey notification, user-confirmation request, user-passkey
request) is fatal when that address differs from the bound address: the
handler stops at an assertion with no command sent, the handler and its record
unchanged and `Cancel` not run.  The keypress handler does not compare the
address: a valid keypress notification returns without effect whatever address
it carries. -/
theorem address_mismatch_fatal (h : ClassicPairingHandler) (event : Event) (address : Address)
    (haddr : event.GetBdAddr = some address) (hdiff : address ≠ h.GetAddress)
    (hkind : event.isKeypressNotification = false) :
    OnReceive h event
      = { handler := h
          calls := []
          abort := some (if event.IsValid then Abort.address_mismatch else Abort.packet_IsValid) }
    ∧ ∀ packet : KeypressNotificationView, packet.IsValid = true →
        OnReceive h (Event.KeypressNotification packet)
          = { handler := h, calls := [], abort := none } := by
  constructor
  · have hne : ∀ a : Address, a = address → ¬ h.GetAddress = a := by
      intro a ha hb
      exact hdiff (by rw [← ha, ← hb])
    cases event with
    | KeypressNotification packet => simp [Event.isKeypressNotification] at hkind
    | ChangeConnectionLinkKeyComplete packet => simp [Event.GetBdAddr] at haddr
    | MasterLinkKeyComplete packet => simp [Event.GetBdAddr] at haddr
    | ReturnLinkKeys packet => simp [Event.GetBdAddr] at haddr
    | EncryptionChange packet => simp [Event.GetBdAddr] at haddr
    | EncryptionKeyRefreshComplete packet => simp [Event.GetBdAddr] at haddr
    | _ =>
      simp only [Event.GetBdAddr, Option.some.injEq] at haddr
      have hmis := hne _ haddr
      simp only [OnReceive, OnReceive_PinCodeRequestView,
        OnReceive_LinkKeyRequestView, OnReceive_LinkKeyNotificationView,
        OnReceive_IoCapabilityRequestView,
        OnReceive_IoCapabilityResponseView, OnReceive_SimplePairingCompleteView,
        OnReceive_RemoteOobDataRequestView, OnReceive_UserConfirmationRequestView,
        OnReceive_UserPasskeyNotificationView, OnReceive_UserPasskeyRequestView,
        Event.IsValid, Outcome.fail]
      rename_i packet
      by_cases hv : packet.IsValid = true <;> simp [hmis, hv]
  · intro packet hvalid
    simp only [OnReceive, OnReceive_KeypressNotificationView, hvalid]
    cases packet.GetNotificationType <;> rfl

theorem address_mismatch_fatal_witness :
    OnReceive sampleHandler (Event.SimplePairingComplete
        { IsValid := true, GetStatus := 0, GetBdAddr := 2 })
      = { handler := sampleHandler, calls := [], abort := some Abort.address_mismatch } :=
  (address_mismatch_fatal sampleHandler
    (Event.SimplePairingComplete { IsValid := true, GetStatus := 0, GetBdAddr := 2 }) 2
    rfl (by decide) rfl).1

/-- C7: for every event kind, a packet whose validity predicate is false stops
the handler at the first assertion: no command or other call is made, the
handler (record and remote capability included) is unchanged and `Cancel` is
not run. -/
theorem invalid_packet_fatal (h : ClassicPairingHandler) (event : Event)
    (hinvalid : event.IsValid = false) :
    OnReceive h event
      = { handler := h, calls := [], abort := some Abort.packet_IsValid } := by
  cases event <;>
    simp_all [Event.IsValid, OnReceive, OnReceive_ChangeConnectionLinkKeyCompleteView,
      OnReceive_MasterLinkKeyCompleteView, OnReceive_PinCodeRequestView,
      OnReceive_LinkKeyRequestView, OnReceive_LinkKeyNotificationView,
      OnReceive_IoCapabilityRequestView, OnReceive_IoCapabilityResponseView,
      OnReceive_SimplePairingCompleteView, OnReceive_ReturnLinkKeysView,
      OnReceive_EncryptionChangeView, OnReceive_EncryptionKeyRefreshCompleteView,
      OnReceive_RemoteOobDataRequestView, OnReceive_UserPasskeyNotificationView,
      OnReceive_KeypressNotificationView, OnReceive_UserConfirmationRequestView,
      OnReceive_UserPasskeyRequestView, Outcome.fail]

theorem invalid_packet_fatal_witness :
    OnReceive { sampleHandler with fixed_channel_ := some 7, fixed_channel_service_ := some 3 }
        (Event.SimplePairingComplete { IsValid := false, GetStatus := 0, GetBdAddr := 1 })
      = { handler :=
            { sampleHandler with fixed_channel_ := some 7, fixed_channel_service_ := some 3 }
          calls := []
          abort := some Abort.packet_IsValid } :=
  invalid_packet_fatal
    { sampleHandler with fixed_channel_ := some 7, fixed_channel_service_ := some 3 }
    (Event.SimplePairingComplete { IsValid := false, GetStatus := 0, GetBdAddr := 1 }) rfl

/-! ## Frame of the record, IO-capability reply -/

/-- C9: every entry point other than the link-key notification handler
(`Initiate`, `Cancel`, the five callbacks and every other event handler, the
link-key request handler among them) leaves the whole record, and so its link
key, key type and bonded and paired flags, unchanged for every input. -/
theorem record_written_only_by_LinkKeyNotification (h : ClassicPairingHandler) (entry : Entry)
    (hnot : entry.isLinkKeyNotification = false) :
    (step h entry).handler.record_ = h.record_ := by
  cases entry with
  | OnReceive event => exact OnReceive_record h event hnot
  | OnConnectionOpen fixed_channel =>
    simp only [step, OnConnectionOpen]
    cases h.fixed_channel_ <;> rfl
  | OnConnectionClose error_code =>
    simp only [step, OnConnectionClose]
    cases h.fixed_channel_ <;> rfl
  | _ => rfl

theorem record_written_only_by_LinkKeyNotification_witness :
    (step { sampleHandler with record_ := { sampleHandler.record_ with bonded_ := true } }
        (Entry.OnReceive (Event.LinkKeyRequest { IsValid := true, GetBdAddr := 1 }))).handler.record_
      = { sampleHandler.record_ with bonded_ := true } :=
  record_written_only_by_LinkKeyNotification
    { sampleHandler with record_ := { sampleHandler.record_ with bonded_ := true } }
    (Entry.OnReceive (Event.LinkKeyRequest { IsValid := true, GetBdAddr := 1 })) rfl

/-- C10: after `Initiate(locally_initiated, io, oob, auth)` and any further
entries other than `Initiate`, a valid IO-capability request with the bound
address is answered with exactly one IO-capability reply carrying the bound
address, `io`, `NOT_PRESENT` and `auth`, for every value of `oob`; the handler
is unchanged and the function returns. -/
theorem IoCapabilityRequest_reply_after_Initiate (h : ClassicPairingHandler)
    (locally_initiated : Bool) (io : IoCapability) (oob : OobDataPresent)
    (auth : AuthenticationRequirements) (entries : List Entry)
    (packet : IoCapabilityRequestView)
    (hentries : ∀ entry ∈ entries, entry.isInitiate = false)
    (hvalid : packet.IsValid = true) (haddr : packet.GetBdAddr = h.GetAddress) :
    OnReceive (run (Initiate h locally_initiated io oob auth).handler entries).handler
        (Event.IoCapabilityRequest packet)
      = { handler := (run (Initiate h locally_initiated io oob auth).handler entries).handler
          calls := [Call.SendCommand (Command.IoCapabilityRequestReply h.GetAddress io
            OobDataPresent.NOT_PRESENT auth)]
          abort := none } := by
  have hkeep := run_replyParameters entries (Initiate h locally_initiated io oob auth).handler
    hentries
  simp only [replyParameters, Initiate, Prod.mk.injEq] at hkeep
  obtain ⟨hdev, hio, hauth⟩ := hkeep
  simp only [OnReceive, OnReceive_IoCapabilityRequestView, hvalid, haddr,
    ClassicPairingHandler.GetAddress, SecurityRecord.GetAddress]
  simp only [Initiate] at hdev hio hauth ⊢
  simp [hdev, hio, hauth]

theorem IoCapabilityRequest_reply_after_Initiate_witness :
    OnReceive (run (Initiate sampleHandler true IoCapability.DISPLAY_ONLY
          OobDataPresent.P_192_PRESENT AuthenticationRequirements.DEDICATED_BONDING).handler
          [Entry.OnRegistrationComplete RegistrationResult.SUCCESS (some 3),
           Entry.OnConnectionOpen 7]).handler
        (Event.IoCapabilityRequest { IsValid := true, GetBdAddr := 1 })
      = { handler := (run (Initiate sampleHandler true IoCapability.DISPLAY_ONLY
            OobDataPresent.P_192_PRESENT AuthenticationRequirements.DEDICATED_BONDING).handler
            [Entry.OnRegistrationComplete RegistrationResult.SUCCESS (some 3),
             Entry.OnConnectionOpen 7]).handler
          calls := [Call.SendCommand (Command.IoCapabilityRequestReply sampleHandler.GetAddress
            IoCapability.DISPLAY_ONLY OobDataPresent.NOT_PRESENT
            AuthenticationRequirements.DEDICATED_BONDING)]
          abort := none } :=
  IoCapabilityRequest_reply_after_Initiate sampleHandler true IoCapability.DISPLAY_ONLY
    OobDataPresent.P_192_PRESENT AuthenticationRequirements.DEDICATED_BONDING
    [Entry.OnRegistrationComplete RegistrationResult.SUCCESS (some 3), Entry.OnConnectionOpen 7]
    { IsValid := true, GetBdAddr := 1 } (by decide) rfl rfl

/-! ## Role selection -/

/-- C11: the confirmation handler takes the local capability as initiator and
the remote one as responder when `locally_initiated_` is true, and the reverse
otherwise; so for all capabilities a and b a request handled with
(locally initiated, local a, remote b) makes the same calls, and stops or
returns the same way, as with (not locally initiated, local b, remote a). -/
theorem UserConfirmationRequest_role_selection (h : ClassicPairingHandler)
    (a b : IoCapability) (packet : UserConfirmationRequestView) :
    initiator_io_capability { h with
        locally_initiated_ := true, local_io_capability_ := a, remote_io_capability_ := b } = a
    ∧ responder_io_capability { h with
        locally_initiated_ := true, local_io_capability_ := a, remote_io_capability_ := b } = b
    ∧ initiator_io_capability { h with
        locally_initiated_ := false, local_io_capability_ := b, remote_io_capability_ := a } = a
    ∧ responder_io_capability { h with
        locally_initiated_ := false, local_io_capability_ := b, remote_io_capability_ := a } = b
    ∧ (OnReceive { h with
          locally_initiated_ := true, local_io_capability_ := a, remote_io_capability_ := b }
        (Event.UserConfirmationRequest packet)).calls
      = (OnReceive { h with
          locally_initiated_ := false, local_io_capability_ := b, remote_io_capability_ := a }
        (Event.UserConfirmationRequest packet)).calls
    ∧ (OnReceive { h with
          locally_initiated_ := true, local_io_capability_ := a, remote_io_capability_ := b }
        (Event.UserConfirmationRequest packet)).abort
      = (OnReceive { h with
          locally_initiated_ := false, local_io_capability_ := b, remote_io_capability_ := a }
        (Event.UserConfirmationRequest packet)).abort := by
  refine ⟨rfl, rfl, rfl, rfl, ?_, ?_⟩
  · by_cases hvalid : packet.IsValid = true <;>
      by_cases haddr : h.record_.GetAddress = packet.GetBdAddr <;>
      cases a <;> cases b <;>
      simp [OnReceive, OnReceive_UserConfirmationRequestView, initiator_io_capability,
        responder_io_capability, ClassicPairingHandler.GetAddress, hvalid, haddr,
        Outcome.fail, Outcome.ret, sendUserConfirmationRequestReply]
  · by_cases hvalid : packet.IsValid = true <;>
      by_cases haddr : h.record_.GetAddress = packet.GetBdAddr <;>
      cases a <;> cases b <;>
      simp [OnReceive, OnReceive_UserConfirmationRequestView, initiator_io_capability,
        responder_io_capability, ClassicPairingHandler.GetAddress, hvalid, haddr,
        Outcome.fail, Outcome.ret, sendUserConfirmationRequestReply]

/-! ## Lifecycle callbacks -/

/-- C12 (counterexample): `Cancel()` right after `Initiate`, before the
registration has completed, returns without running the completion callback:
the only call of the run is the registration request and the callback is still
bound. -/
theorem Cancel_before_registration_runs_no_completion :
    (run sampleHandler
      [ Entry.Initiate true IoCapability.DISPLAY_ONLY OobDataPresent.NOT_PRESENT
          AuthenticationRequirements.GENERAL_BONDING,
        Entry.Cancel ]).calls = [Call.RegisterService]
    ∧ (run sampleHandler
      [ Entry.Initiate true IoCapability.DISPLAY_ONLY OobDataPresent.NOT_PRESENT
          AuthenticationRequirements.GENERAL_BONDING,
        Entry.Cancel ]).handler.complete_callback_ = OnceCallback.bound
    ∧ (Cancel (Initiate sampleHandler true IoCapability.DISPLAY_ONLY OobDataPresent.NOT_PRESENT
          AuthenticationRequirements.GENERAL_BONDING).handler).calls = []
    ∧ countRun (Cancel (Initiate sampleHandler true IoCapability.DISPLAY_ONLY
          OobDataPresent.NOT_PRESENT AuthenticationRequirements.GENERAL_BONDING).handler).calls
        = 0 := by
  refine ⟨?_, ?_, ?_, ?_⟩ <;> decide

/-- C12 (amended): `Cancel()` on a session that holds no registration returns
with the session unchanged, requests no unregistration and does not run the
completion callback; its only call is `Release` when a channel is held.  The
completion callback is run only by the unregistration-complete callback: in
every state, every other entry executes no `complete_callback_.Run`, and the
unregistration-complete callback executes exactly one, with the bound
address. -/
theorem Cancel_without_registration (h : ClassicPairingHandler)
    (hnone : h.fixed_channel_service_ = none) :
    Cancel h
      = { handler := h
          calls :=
            match h.fixed_channel_ with
            | some fixed_channel => [Call.Release fixed_channel]
            | none => []
          abort := none }
    ∧ countRun (Cancel h).calls = 0
    ∧ countUnregister (Cancel h).calls = 0
    ∧ (∀ (state : ClassicPairingHandler) (entry : Entry), entry ≠ Entry.OnUnregistered →
        countRun (step state entry).calls = 0)
    ∧ (∀ state : ClassicPairingHandler,
        (step state Entry.OnUnregistered).calls
          = [Call.Run state.complete_callback_ state.GetAddress]) := by
  refine ⟨?_, ?_, ?_, ?_, ?_⟩
  · simp only [Cancel, hnone]
    cases h.fixed_channel_ <;> simp
  · exact Cancel_countRun h
  · simp only [Cancel, hnone]
    cases h.fixed_channel_ <;> simp [countUnregister]
  · intro state entry hother
    exact step_countRun state entry hother
  · intro state
    rfl

theorem Cancel_without_registration_witness :
    Cancel { sampleHandler with fixed_channel_ := some 7 }
      = { handler := { sampleHandler with fixed_channel_ := some 7 }
          calls := [Call.Release 7]
          abort := none } :=
  (Cancel_without_registration { sampleHandler with fixed_channel_ := some 7 } rfl).1

/-- C14: a valid simple-pairing-complete event with the bound address does
exactly what `Cancel()` does, whatever its status: replacing the status by any
other gives the same outcome, and with a channel and a registration held the
calls are one `Release` and one `Unregister`. -/
theorem SimplePairingComplete_is_Cancel (h : ClassicPairingHandler)
    (packet : SimplePairingCompleteView) (status : ErrorCode)
    (hvalid : packet.IsValid = true) (haddr : packet.GetBdAddr = h.GetAddress) :
    OnReceive h (Event.SimplePairingComplete packet) = Cancel h
    ∧ OnReceive h (Event.SimplePairingComplete { packet with GetStatus := status })
        = OnReceive h (Event.SimplePairingComplete packet)
    ∧ ∀ fixed_channel fixed_channel_service,
        h.fixed_channel_ = some fixed_channel →
        h.fixed_channel_service_ = some fixed_channel_service →
        OnReceive h (Event.SimplePairingComplete packet)
          = { handler := h
              calls := [Call.Release fixed_channel, Call.Unregister fixed_channel_service]
              abort := none } := by
  refine ⟨?_, ?_, ?_⟩
  · simp [OnReceive, OnReceive_SimplePairingCompleteView, hvalid, haddr]
  · simp [OnReceive, OnReceive_SimplePairingCompleteView, hvalid, haddr]
  · intro fixed_channel fixed_channel_service hch hsvc
    simp [OnReceive, OnReceive_SimplePairingCompleteView, hvalid, haddr, Cancel, hch, hsvc]

theorem SimplePairingComplete_is_Cancel_witness :
    OnReceive { sampleHandler with fixed_channel_ := some 7, fixed_channel_service_ := some 3 }
        (Event.SimplePairingComplete { IsValid := true, GetStatus := 5, GetBdAddr := 1 })
      = { handler :=
            { sampleHandler with fixed_channel_ := some 7, fixed_channel_service_ := some 3 }
          calls := [Call.Release 7, Call.Unregister 3]
          abort := none } :=
  (SimplePairingComplete_is_Cancel
    { sampleHandler with fixed_channel_ := some 7, fixed_channel_service_ := some 3 }
    { IsValid := true, GetStatus := 5, GetBdAddr := 1 } 0 rfl rfl).2.2 7 3 rfl rfl

/-- C15: the connection-opened callback stops at its assertion exactly when a
channel is already held, and then acquires nothing and changes nothing; when no
channel is held it stores the channel, calls `Acquire` on it once and registers
one on-close callback, and returns with the session holding that channel. -/
theorem OnConnectionOpen_acquires_once (h : ClassicPairingHandler)
    (fixed_channel : FixedChannel) :
    ((OnConnectionOpen h fixed_channel).abort.isSome = true ↔ h.fixed_channel_.isSome = true)
    ∧ (h.fixed_channel_.isSome = true →
        OnConnectionOpen h fixed_channel
          = { handler := h, calls := [], abort := some Abort.fixed_channel_eq_nullptr })
    ∧ (h.fixed_channel_ = none →
        OnConnectionOpen h fixed_channel
          = { handler := { h with fixed_channel_ := some fixed_channel }
              calls := [Call.Acquire fixed_channel, Call.RegisterOnCloseCallback fixed_channel]
              abort := none }) := by
  unfold OnConnectionOpen
  cases h.fixed_channel_ <;> simp [Outcome.fail]

theorem OnConnectionOpen_acquires_once_witness :
    OnConnectionOpen sampleHandler 7
      = { handler := { sampleHandler with fixed_channel_ := some 7 }
          calls := [Call.Acquire 7, Call.RegisterOnCloseCallback 7]
          abort := none }
    ∧ OnConnectionOpen { sampleHandler with fixed_channel_ := some 7 } 8
      = { handler := { sampleHandler with fixed_channel_ := some 7 }
          calls := []
          abort := some Abort.fixed_channel_eq_nullptr } :=
  ⟨(OnConnectionOpen_acquires_once sampleHandler 7).2.2 rfl,
   (OnConnectionOpen_acquires_once { sampleHandler with fixed_channel_ := some 7 } 8).2.1 rfl⟩

/-- C16: on a session with no channel and the completion callback bound, once
the registration has completed with a service, a connection-failure callback
with any result calls no `Release` and issues exactly one `Unregister`; the
unregistration-complete callback that follows runs the completion callback
exactly once, with the bound address. -/
theorem OnConnectionFail_then_OnUnregistered (h : ClassicPairingHandler)
    (fixed_channel_service : FixedChannelService) (result : ConnectionResult)
    (hchannel : h.fixed_channel_ = none) (hcallback : h.complete_callback_ = OnceCallback.bound) :
    OnConnectionFail (OnRegistrationComplete h RegistrationResult.SUCCESS
        (some fixed_channel_service)).handler result
      = { handler := { h with fixed_channel_service_ := some fixed_channel_service }
          calls := [Call.Unregister fixed_channel_service]
          abort := none }
    ∧ run h
        [ Entry.OnRegistrationComplete RegistrationResult.SUCCESS (some fixed_channel_service),
          Entry.OnConnectionFail result,
          Entry.OnUnregistered ]
      = { handler :=
            { h with
              fixed_channel_service_ := some fixed_channel_service
              complete_callback_ := OnceCallback.moved_from }
          calls :=
            [ Call.ConnectServices h.GetAddress,
              Call.Unregister fixed_channel_service,
              Call.Run OnceCallback.bound h.GetAddress ]
          abort := none } := by
  constructor
  · simp [OnConnectionFail, OnRegistrationComplete, Cancel, hchannel]
  · simp [run, step, OnConnectionFail, OnRegistrationComplete, OnUnregistered, Cancel, hchannel,
      hcallback, Outcome.ret, ClassicPairingHandler.GetAddress]

theorem OnConnectionFail_then_OnUnregistered_witness :
    (run sampleHandler
        [ Entry.OnRegistrationComplete RegistrationResult.SUCCESS (some 3),
          Entry.OnConnectionFail ConnectionResult.FAIL_HCI_ERROR,
          Entry.OnUnregistered ]).calls
      = [Call.ConnectServices 1, Call.Unregister 3, Call.Run OnceCallback.bound 1] :=
  congrArg Outcome.calls
    (OnConnectionFail_then_OnUnregistered sampleHandler 3 ConnectionResult.FAIL_HCI_ERROR
      rfl rfl).2

/-- C17 (counterexample): a second `Initiate` on a session already initiated
returns normally, replaces the stored local parameters and issues a second
registration request. -/
theorem Initiate_twice_returns :
    Initiate (Initiate sampleHandler true IoCapability.DISPLAY_ONLY OobDataPresent.NOT_PRESENT
        AuthenticationRequirements.GENERAL_BONDING).handler
      false IoCapability.KEYBOARD_ONLY OobDataPresent.P_192_PRESENT
        AuthenticationRequirements.NO_BONDING
    = { handler :=
          { sampleHandler with
            locally_initiated_ := false
            local_io_capability_ := IoCapability.KEYBOARD_ONLY
            local_oob_present_ := OobDataPresent.P_192_PRESENT
            local_authentication_requirements_ := AuthenticationRequirements.NO_BONDING }
        calls := [Call.RegisterService]
        abort := none }
    ∧ (run sampleHandler
        [ Entry.Initiate true IoCapability.DISPLAY_ONLY OobDataPresent.NOT_PRESENT
            AuthenticationRequirements.GENERAL_BONDING,
          Entry.Initiate false IoCapability.KEYBOARD_ONLY OobDataPresent.P_192_PRESENT
            AuthenticationRequirements.NO_BONDING ]).calls
      = [Call.RegisterService, Call.RegisterService] := by
  constructor <;> decide

/-- C17 (amended): `Initiate` has no check for an earlier initiation: called a
second time it returns normally, stores its own arguments as the local
parameters in place of the earlier ones, leaves every other member as it was
and issues one more registration request. -/
theorem Initiate_again_overwrites (h : ClassicPairingHandler)
    (locally_initiated locally_initiated2 : Bool) (io io2 : IoCapability)
    (oob oob2 : OobDataPresent) (auth auth2 : AuthenticationRequirements) :
    Initiate (Initiate h locally_initiated io oob auth).handler locally_initiated2 io2 oob2 auth2
      = { handler :=
            { h with
              locally_initiated_ := locally_initiated2
              local_io_capability_ := io2
              local_oob_present_ := oob2
              local_authentication_requirements_ := auth2 }
          calls := [Call.RegisterService]
          abort := none } := rfl

/-- C18: on registration success the callback stores the service, so that a
later `Cancel()` requests its unregistration, and makes exactly one call, the
connection request to the bound address: no channel is acquired, no command is
sent and the completion callback is not run. -/
theorem OnRegistrationComplete_success (h : ClassicPairingHandler)
    (fixed_channel_service : FixedChannelService) :
    OnRegistrationComplete h RegistrationResult.SUCCESS (some fixed_channel_service)
      = { handler := { h with fixed_channel_service_ := some fixed_channel_service }
          calls := [Call.ConnectServices h.record_.device_]
          abort := none }
    ∧ Call.Unregister fixed_channel_service ∈
        (Cancel (OnRegistrationComplete h RegistrationResult.SUCCESS
          (some fixed_channel_service)).handler).calls := by
  constructor
  · rfl
  · simp [OnRegistrationComplete, Cancel]

/-! ## Events without a reply -/

/-- C19: a valid IO-capability response with the bound address and capability
c leaves the session with remote IO capability c; every other member (local
parameters, `locally_initiated_`, channel, service, record) is unchanged, no
command is sent and the function returns. -/
theorem IoCapabilityResponse_records_remote (h : ClassicPairingHandler)
    (packet : IoCapabilityResponseView) (hvalid : packet.IsValid = true)
    (haddr : packet.GetBdAddr = h.GetAddress) :
    OnReceive h (Event.IoCapabilityResponse packet)
      = { handler := { h with remote_io_capability_ := packet.GetIoCapability }
          calls := []
          abort := none } := by
  simp [OnReceive, OnReceive_IoCapabilityResponseView, hvalid, haddr, Outcome.ret]

theorem IoCapabilityResponse_records_remote_witness :
    OnReceive sampleHandler (Event.IoCapabilityResponse
        { IsValid := true, GetBdAddr := 1, GetIoCapability := IoCapability.DISPLAY_ONLY })
      = { handler := { sampleHandler with remote_io_capability_ := IoCapability.DISPLAY_ONLY }
          calls := []
          abort := none } :=
  IoCapabilityResponse_records_remote sampleHandler
    { IsValid := true, GetBdAddr := 1, GetIoCapability := IoCapability.DISPLAY_ONLY } rfl rfl

/-- C20: every valid event of the listed no-op kinds (change-link-key complete,
master-link-key complete, return-link-keys, encryption change, encryption
key-refresh complete, remote-OOB-data request, user-passkey notification,
user-passkey request, each with the bound address where it has one, and
keypress notification of any of the five sub-kinds) returns normally with the
session and record unchanged and no call made: nothing is sent and `Cancel` is
not run. -/
theorem defined_noop_events (h : ClassicPairingHandler) (event : Event)
    (hkind : event.isDefinedNoOp = true) (hvalid : event.IsValid = true)
    (haddr : event.isKeypressNotification = false →
      ∀ address, event.GetBdAddr = some address → address = h.GetAddress) :
    OnReceive h event = { handler := h, calls := [], abort := none } := by
  cases event with
  | ChangeConnectionLinkKeyComplete packet =>
    simp_all [OnReceive, OnReceive_ChangeConnectionLinkKeyCompleteView, Event.IsValid, Outcome.ret]
  | MasterLinkKeyComplete packet =>
    simp_all [OnReceive, OnReceive_MasterLinkKeyCompleteView, Event.IsValid, Outcome.ret]
  | ReturnLinkKeys packet =>
    simp_all [OnReceive, OnReceive_ReturnLinkKeysView, Event.IsValid, Outcome.ret]
  | EncryptionChange packet =>
    simp_all [OnReceive, OnReceive_EncryptionChangeView, Event.IsValid, Outcome.ret]
  | EncryptionKeyRefreshComplete packet =>
    simp_all [OnReceive, OnReceive_EncryptionKeyRefreshCompleteView, Event.IsValid, Outcome.ret]
  | RemoteOobDataRequest packet =>
    simp_all [OnReceive, OnReceive_RemoteOobDataRequestView, Event.IsValid, Event.GetBdAddr,
      Event.isKeypressNotification, Outcome.ret]
  | UserPasskeyNotification packet =>
    simp_all [OnReceive, OnReceive_UserPasskeyNotificationView, Event.IsValid, Event.GetBdAddr,
      Event.isKeypressNotification, Outcome.ret]
  | UserPasskeyRequest packet =>
    simp_all [OnReceive, OnReceive_UserPasskeyRequestView, Event.IsValid, Event.GetBdAddr,
      Event.isKeypressNotification, Outcome.ret]
  | KeypressNotification packet =>
    simp only [Event.IsValid] at hvalid
    simp only [OnReceive, OnReceive_KeypressNotificationView, hvalid]
    cases packet.GetNotificationType <;> rfl
  | _ => simp [Event.isDefinedNoOp] at hkind

theorem defined_noop_events_witness :
    OnReceive sampleHandler (Event.KeypressNotification
        { IsValid := true, GetBdAddr := 1,
          GetNotificationType := KeypressNotificationType.ENTRY_COMPLETED })
      = { handler := sampleHandler, calls := [], abort := none }
    ∧ OnReceive sampleHandler (Event.UserPasskeyRequest { IsValid := true, GetBdAddr := 1 })
      = { handler := sampleHandler, calls := [], abort := none } :=
  ⟨defined_noop_events sampleHandler (Event.KeypressNotification
      { IsValid := true, GetBdAddr := 1,
        GetNotificationType := KeypressNotificationType.ENTRY_COMPLETED }) rfl rfl
      (by decide),
   defined_noop_events sampleHandler (Event.UserPasskeyRequest { IsValid := true, GetBdAddr := 1 })
      rfl rfl (by intro _ address haddr; cases haddr; rfl)⟩

/-! ## The channel handle along a session -/

/-- C13 (counterexample): after `Initiate`, registration, connection open and
`Cancel()`, the channel has been released, so the session is not in
`ChannelOpen`, yet `fixed_channel_` still holds the channel. -/
theorem channel_handle_kept_after_Cancel :
    run sampleHandler
      [ Entry.Initiate true IoCapability.DISPLAY_ONLY OobDataPresent.NOT_PRESENT
          AuthenticationRequirements.GENERAL_BONDING,
        Entry.OnRegistrationComplete RegistrationResult.SUCCESS (some 3),
        Entry.OnConnectionOpen 7,
        Entry.Cancel ]
    = { handler :=
          { sampleHandler with
            locally_initiated_ := true
            local_io_capability_ := IoCapability.DISPLAY_ONLY
            fixed_channel_service_ := some 3
            fixed_channel_ := some 7 }
        calls :=
          [ Call.RegisterService, Call.ConnectServices 1, Call.Acquire 7,
            Call.RegisterOnCloseCallback 7, Call.Release 7, Call.Unregister 3 ]
        abort := none }
    ∧ specChannelOpen
        [ Call.RegisterService, Call.ConnectServices 1, Call.Acquire 7,
          Call.RegisterOnCloseCallback 7, Call.Release 7, Call.Unregister 3 ] = false := by
  constructor <;> decide

/-- C13 (amended): along every run of entries on a session that started
without a channel, the session holds a channel handle exactly when the
connection-opened callback has acquired that channel, and it holds one
whenever a channel has been acquired and not yet released; `Cancel()` calls
`Release` on the held channel and keeps the handle. -/
theorem channel_held_iff_acquired (h : ClassicPairingHandler) (entries : List Entry)
    (habsent : h.fixed_channel_ = none) :
    (∀ fixed_channel, (run h entries).handler.fixed_channel_ = some fixed_channel ↔
        Call.Acquire fixed_channel ∈ (run h entries).calls)
    ∧ (specChannelOpen (run h entries).calls = true →
        (run h entries).handler.fixed_channel_.isSome = true)
    ∧ (∀ fixed_channel, (run h entries).handler.fixed_channel_ = some fixed_channel →
        Call.Release fixed_channel ∈ (Cancel (run h entries).handler).calls
        ∧ (Cancel (run h entries).handler).handler.fixed_channel_ = some fixed_channel) := by
  have hiff := run_channel_absent entries h habsent
  refine ⟨hiff, ?_, ?_⟩
  · intro hopen
    rcases specChannelOpenFrom_acquired _ false hopen with hfalse | ⟨c, hc⟩
    · cases hfalse
    · rw [(hiff c).mpr hc]
      rfl
  · intro c hc
    constructor
    · simp [Cancel, hc]
    · rw [Cancel_handler, hc]

theorem channel_held_iff_acquired_witness :
    (run sampleHandler
      [ Entry.Initiate true IoCapability.DISPLAY_ONLY OobDataPresent.NOT_PRESENT
          AuthenticationRequirements.GENERAL_BONDING,
        Entry.OnRegistrationComplete RegistrationResult.SUCCESS (some 3),
        Entry.OnConnectionOpen 7 ]).handler.fixed_channel_ = some 7 :=
  ((channel_held_iff_acquired sampleHandler
      [ Entry.Initiate true IoCapability.DISPLAY_ONLY OobDataPresent.NOT_PRESENT
          AuthenticationRequirements.GENERAL_BONDING,
        Entry.OnRegistrationComplete RegistrationResult.SUCCESS (some 3),
        Entry.OnConnectionOpen 7 ] rfl).1 7).mpr (by decide)

end bluetooth.security.pairing
